import Mathlib

/-!
# Verification of the sc-hsm-ultralite core against its specification

This file contains a shallow embedding, in Lean 4, of the parts of the
sc-hsm-ultralite C sources that the specification claims talk about:

* the APDU command encoders (`src/ultralite/utils.c` `SC_ProcessAPDU`,
  `src/pkcs11/slot.c` `encodeCommandAPDU`),
* the template engine (`src/ultralite/sc-hsm-ultralite.c`: `LoadTemplate`,
  `PatchSignedAttributes`, `PatchRSATemplate`, `PatchECDSATemplate`,
  `sign_hash2`),
* the PKCS#11 session/slot machinery (`src/pkcs11/p11session.c`
  `C_OpenSession` / `C_CloseSession`, `src/pkcs11/slot.c` `safeUpdateSlots`,
  `src/pkcs11/p11objects.c` `C_GetAttributeValue`).

Machine integers are modelled as `Nat`/`Int`; byte buffers are `List Nat`
(every element a byte value).  Card I/O and the SHA-256 primitive are external
collaborators of the core (spec §1 "out of scope") and are passed in as
explicit parameters.  Mutex operations have no content in the sequential
semantics embedded here; atomic `queuing` counters appear as plain state
fields whose values stand for what concurrent threads have pinned.
-/

namespace Ultralite

/-! ## Byte-buffer primitives

`rd l i` is the C read `l[i]` (out-of-range reads return 0; all theorems are
used on in-range indices), `wr l i v` is the C write `l[i] = v`, and
`memcpy l off src` copies all of `src` into `l` starting at `off`. -/

def rd (l : List Nat) (i : Nat) : Nat := l.getD i 0

def wr (l : List Nat) (i : Nat) (v : Nat) : List Nat := l.set i v

def memcpy (l : List Nat) (off : Nat) (src : List Nat) : List Nat :=
  match src with
  | [] => l
  | b :: rest => memcpy (wr l off b) (off + 1) rest

/-- C error codes from `src/ultralite/sc-hsm-ultralite.h`. -/
def ERR_INVALID : Int := -1

def ERR_MEMORY : Int := -11

def ERR_APDU : Int := -1004

def ERR_KEY : Int := -1005

def ERR_TEMPLATE : Int := -1006

def ERR_VERSION : Int := -1007

def ERR_SANITY : Int := -1008

def ERR_KEY_SIZE : Int := -1009

def ERR_HASH : Int := -1010

def ERR_TIME : Int := -1011

/-- `MAX_OUT_IN` from `src/ultralite/utils.h` for _WIN32/__linux__ builds. -/
def MAX_OUT_IN : Nat := 8192

/-! ## APDU encoding, `SC_ProcessAPDU` (src/ultralite/utils.c lines 309-390)

Only the command-encoding half is embedded (the transmission and the
response split are reader I/O).  `outPresent`/`inPresent` model the
NULL-ness of the C `outData`/`inData` pointers. -/

def scProcessAPDUEncode (cla ins p1 p2 : Nat)
    (outPresent : Bool) (outData : List Nat) (outLen : Int)
    (inPresent : Bool) (inLen : Int) : Except Int (List Nat) :=
  if 4 + 5 + outLen > 4 + 5 + (MAX_OUT_IN : Int) then .error ERR_MEMORY
  else if inLen + 2 > 4 + 5 + (MAX_OUT_IN : Int) then .error ERR_MEMORY
  else if ¬(0 ≤ inLen ∧ inLen ≤ 0x10000) then .error ERR_MEMORY
  else if ¬(0 ≤ outLen ∧ outLen ≤ 0x10000) then .error ERR_MEMORY
  else if outLen > 0 ∧ outPresent = false then .error ERR_MEMORY
  else if inLen > 0 ∧ inPresent = false then .error ERR_MEMORY
  else
    let hdr := [cla, ins, p1, p2]
    -- "if Lc not present use long APDU for inLen == 256"
    if outLen ≤ 255 ∧ (inLen ≤ 255 ∨ outLen > 0 ∧ inLen = 256) then
      -- short APDU
      let lc := if outLen > 0 then outLen.toNat % 256 :: outData.take outLen.toNat else []
      let le := if inLen > 0 then [inLen.toNat % 256] else []
      .ok (hdr ++ lc ++ le)
    else
      -- long APDU: leading 0 indicator
      let lc := if outLen > 0 then
          outLen.toNat / 256 % 256 :: outLen.toNat % 256 :: outData.take outLen.toNat
        else []
      let le := if inLen > 0 then [inLen.toNat / 256 % 256, inLen.toNat % 256] else []
      .ok (hdr ++ 0 :: lc ++ le)

/-! ## APDU encoding, `encodeCommandAPDU` (src/pkcs11/slot.c lines 135-187)

`Ne = -1` means no response expected.  `outPresent` models the NULL-ness of
the C `OutData` pointer; the C function touches `OutData` only when it is
non-NULL and `Nc > 0`. -/

def encodeCommandAPDU (CLA INS P1 P2 : Nat)
    (Nc : Nat) (outPresent : Bool) (OutData : List Nat) (Ne : Int)
    (apduLen : Nat) : Option (List Nat) :=
  if Nc + 9 > apduLen then none
  else if Nc ≠ 0 ∧ outPresent = false then none
  else
    let hdr := [CLA, INS, P1, P2]
    let body :=
      if outPresent ∧ Nc ≠ 0 then
        (if Nc ≤ 255 ∧ Ne ≤ 255 then [Nc % 256]
         else [0, Nc / 256 % 256, Nc % 256]) ++ OutData.take Nc
      else []
    let le :=
      if 0 ≤ Ne then
        if Ne ≤ 255 ∧ Nc ≤ 255 then [Ne.toNat % 256]
        else
          let ne := if 65536 ≤ Ne then 0 else Ne.toNat
          (if outPresent = false then [0] else []) ++ [ne / 256 % 256, ne % 256]
      else []
    some (hdr ++ body ++ le)

/-! ## Template structure (src/ultralite/sc-hsm-ultralite.c `Template_t`, lines 223-240)

The header fields are stored big-endian in the on-card file; `LoadTemplate`
reads them raw and byte-swaps on little-endian hosts, so the host value of
each 16-bit field is `hi * 256 + lo` of its two file bytes. -/

structure Template_t where
  Version : Nat
  HeaderLength : Nat
  HashLen : Nat
  CertIdOff : Nat
  SignedAttributesOff : Nat
  SignedAttributesLen : Nat
  SigningTimeOff : Nat
  MessageDigestOff : Nat
  SignatureOff : Nat
  SignatureSize : Nat
  CMSLen : Nat
  KeyFid : Nat
  TemplateFid : Nat
  pCms : List Nat
  Label : String
deriving Repr, DecidableEq

def TEMPLATE_HEADER_LENGTH : Nat := 20

/-- Big-endian 16-bit field at byte offset `i`. -/
def be16 (b : List Nat) (i : Nat) : Nat := rd b i * 256 + rd b (i + 1)

/-- `LoadTemplate` (src/ultralite/sc-hsm-ultralite.c lines 247-346).
Card I/O is passed in: `fids` is the outcome of `GetFids` (discovery),
`hdrRead` the outcome of the 20-byte header `SC_ReadFile`, `bodyRead` the
outcome of the chunked body read (any failed or short chunk read is
`ERR_TEMPLATE` in the C loop, represented here by an `.error` or a body of
the wrong length).  Memory-allocation failures (`ERR_MEMORY`) are not
modelled.  On any error the C code frees the template and resets the
process-wide cache `This` to NULL, so an `.error` result means no template
is cached. -/
def loadTemplate (label : String) (fids : Except Int (Nat × Nat))
    (hdrRead : Except Int (List Nat)) (bodyRead : Except Int (List Nat)) :
    Except Int Template_t :=
  match fids with
  | .error e => .error e
  | .ok (keyFid, templateFid) =>
    match hdrRead with
    | .error e => .error e
    | .ok hdr =>
      if hdr.length ≠ TEMPLATE_HEADER_LENGTH then .error ERR_TEMPLATE
      else if ¬(rd hdr 0 = 0 ∧ rd hdr 1 = TEMPLATE_HEADER_LENGTH) then .error ERR_VERSION
      else
        let HashLen := be16 hdr 2
        let CertIdOff := be16 hdr 4
        let SignedAttributesOff := be16 hdr 6
        let SignedAttributesLen := be16 hdr 8
        let SigningTimeOff := be16 hdr 10
        let MessageDigestOff := be16 hdr 12
        let SignatureOff := be16 hdr 14
        let SignatureSize := be16 hdr 16
        let CMSLen := be16 hdr 18
        if HashLen ≠ 32 then .error ERR_SANITY
        else if ¬(0 < SignedAttributesOff ∧
            SignedAttributesOff + SignedAttributesLen < SignatureOff) then .error ERR_SANITY
        else if ¬(SignedAttributesOff < SigningTimeOff ∧
            SigningTimeOff + 13 ≤ SignedAttributesOff + SignedAttributesLen) then
          .error ERR_SANITY
        else if ¬(SignedAttributesOff < MessageDigestOff ∧
            MessageDigestOff + HashLen ≤ SignedAttributesOff + SignedAttributesLen) then
          .error ERR_SANITY
        else if ¬(0 < SignatureOff ∧ SignatureOff + SignatureSize ≤ CMSLen) then
          .error ERR_SANITY
        else
          match bodyRead with
          | .error _ => .error ERR_TEMPLATE
          | .ok body =>
            if body.length ≠ CMSLen then .error ERR_TEMPLATE
            else .ok {
              Version := 0, HeaderLength := TEMPLATE_HEADER_LENGTH,
              HashLen := HashLen, CertIdOff := CertIdOff,
              SignedAttributesOff := SignedAttributesOff,
              SignedAttributesLen := SignedAttributesLen,
              SigningTimeOff := SigningTimeOff,
              MessageDigestOff := MessageDigestOff,
              SignatureOff := SignatureOff, SignatureSize := SignatureSize,
              CMSLen := CMSLen, KeyFid := keyFid, TemplateFid := templateFid,
              pCms := body, Label := label }

/-- The `Template_t` header invariants of spec §3, stated on the parsed
template (the comparison predicate for claim C2). -/
def headerInvariants (t : Template_t) : Prop :=
  t.Version = 0 ∧ t.HeaderLength = 20 ∧ t.HashLen = 32 ∧
  0 < t.SignedAttributesOff ∧
  t.SignedAttributesOff + t.SignedAttributesLen < t.SignatureOff ∧
  t.SignedAttributesOff < t.SigningTimeOff ∧
  t.SigningTimeOff + 13 ≤ t.SignedAttributesOff + t.SignedAttributesLen ∧
  t.SignedAttributesOff < t.MessageDigestOff ∧
  t.MessageDigestOff + t.HashLen ≤ t.SignedAttributesOff + t.SignedAttributesLen ∧
  0 < t.SignatureOff ∧ t.SignatureOff + t.SignatureSize ≤ t.CMSLen

/-! ## Signature patching (src/ultralite/sc-hsm-ultralite.c lines 356-531)

`struct tm` decomposition of the current UTC time (the result of `gmtime`);
`tm_year` counts years since 1900. -/

structure Tm where
  tm_sec : Nat
  tm_min : Nat
  tm_hour : Nat
  tm_mday : Nat
  tm_mon : Nat
  tm_year : Nat
deriving Repr, DecidableEq

/-- `sprintf "%02d"` for a field value below 100 (all `gmtime` output fields
used here are below 100): the two ASCII digit bytes. -/
def fmt2 (n : Nat) : List Nat := [48 + n / 10, 48 + n % 10]

/-- The 13 bytes `YYMMDDhhmmssZ` built by the `sprintf` in
`PatchSignedAttributes` (`%02d` × 6 then `'Z'` = byte 90). -/
def signingTimeBytes (t : Tm) : List Nat :=
  fmt2 (t.tm_year - 100) ++ fmt2 (1 + t.tm_mon) ++ fmt2 t.tm_mday ++
    fmt2 t.tm_hour ++ fmt2 t.tm_min ++ fmt2 t.tm_sec ++ [90]

/-- The envelope bytes produced by `PatchSignedAttributes` (lines 370-384)
once the time guard has passed: write the signing time at `SigningTimeOff`,
the input hash at `MessageDigestOff`, momentarily replace the tag at
`SignedAttributesOff` by the SET tag 0x31 and restore it after hashing. -/
def patchedAttrCms (tpl : Template_t) (now : Tm) (hash : List Nat) : List Nat :=
  let cms1 := memcpy tpl.pCms tpl.SigningTimeOff (signingTimeBytes now)
  let cms2 := memcpy cms1 tpl.MessageDigestOff hash
  let oldTag := rd cms2 tpl.SignedAttributesOff
  let cms3 := wr cms2 tpl.SignedAttributesOff 0x31
  wr cms3 tpl.SignedAttributesOff oldTag

/-- The hash-to-sign computed by `PatchSignedAttributes`: SHA-256 (passed in
as the external collaborator `sha`) of `SignedAttributesLen` bytes starting
at `SignedAttributesOff`, with the SET tag in place. -/
def attrHashToSign (tpl : Template_t) (sha : List Nat → List Nat) (now : Tm)
    (hash : List Nat) : List Nat :=
  let cms1 := memcpy tpl.pCms tpl.SigningTimeOff (signingTimeBytes now)
  let cms2 := memcpy cms1 tpl.MessageDigestOff hash
  let cms3 := wr cms2 tpl.SignedAttributesOff 0x31
  sha ((cms3.drop tpl.SignedAttributesOff).take tpl.SignedAttributesLen)

/-- `PatchSignedAttributes` (src/ultralite/sc-hsm-ultralite.c lines 356-386):
fails with `ERR_TIME` unless `2013 - 1900 ≤ tm_year < 2050 - 1900`, else
returns the patched envelope and the 32-byte hash of the signed attributes. -/
def patchSignedAttributes (tpl : Template_t) (sha : List Nat → List Nat)
    (now : Tm) (hash : List Nat) : Except Int (List Nat × List Nat) :=
  if ¬(2013 - 1900 ≤ now.tm_year ∧ now.tm_year < 2050 - 1900) then .error ERR_TIME
  else .ok (patchedAttrCms tpl now hash, attrHashToSign tpl sha now hash)

/-- The fixed 19-byte SHA-256 `DigestInfo` prefix `encSHA256` (lines 399-400). -/
def encSHA256 : List Nat :=
  [0x30, 0x31, 0x30, 0x0d, 0x06, 0x09, 0x60, 0x86, 0x48, 0x01, 0x65, 0x03,
   0x04, 0x02, 0x01, 0x05, 0x00, 0x04, 0x20]

/-- The PKCS#1 v1.5 block construction of `PatchRSATemplate` (lines 444-451),
performed inside the envelope at `sigOff` (`sig = This->pCms + SignatureOff`):
`ix = SignatureSize`; copy the 32-byte hash at `ix -= 32`; copy the 19-byte
DigestInfo at `ix -= 19`; a 0x00 at `ix -= 1`; 0xFF from position 2 up to
`ix`; 0x01 at position 1; 0x00 at position 0. -/
def buildRSABlockAt (cms : List Nat) (sigOff sigSize : Nat)
    (hashToSign : List Nat) : List Nat :=
  let ix1 := sigSize - 32
  let c1 := memcpy cms (sigOff + ix1) (hashToSign.take 32)
  let ix2 := ix1 - 19
  let c2 := memcpy c1 (sigOff + ix2) encSHA256
  let ix3 := ix2 - 1
  let c3 := wr c2 (sigOff + ix3) 0
  let c4 := memcpy c3 (sigOff + 2) (List.replicate (ix3 - 2) 0xFF)
  let c5 := wr c4 (sigOff + 1) 1
  wr c5 (sigOff + 0) 0

/-- The envelope after `PatchRSATemplate` has built the padded block and
before the card is invoked: the attribute-patched envelope with the PKCS#1
block at `SignatureOff`. -/
def rsaBuiltEnvelope (tpl : Template_t) (sha : List Nat → List Nat) (now : Tm)
    (hash : List Nat) : List Nat :=
  buildRSABlockAt (patchedAttrCms tpl now hash) tpl.SignatureOff
    tpl.SignatureSize (attrHashToSign tpl sha now hash)

/-- `PatchRSATemplate` (lines 388-453).  `cardResp` is the outcome of
`SC_Sign(0x20, …)`: `.error` for a transport/APDU failure, `.ok resp` for a
response of `resp.length` bytes written back into the signature region
(input and output buffers alias).  `SC_ProcessAPDU` never truncates: a
response longer than the supplied buffer (`SignatureSize` bytes) yields
`ERR_INVALID`.  Returns the updated envelope bytes, the updated `CMSLen`
(unchanged for RSA) and the byte count `rc`. -/
def patchRSATemplate (tpl : Template_t) (sha : List Nat → List Nat) (now : Tm)
    (hash : List Nat) (cardResp : Except Int (List Nat)) :
    Except Int (List Nat × Nat × Nat) :=
  match patchSignedAttributes tpl sha now hash with
  | .error e => .error e
  | .ok (_cms, _hashToSign) =>
    if hash.length ≠ 32 then .error ERR_HASH
    else
      let cms1 := rsaBuiltEnvelope tpl sha now hash
      match cardResp with
      | .error e => .error e
      | .ok resp =>
        if tpl.SignatureSize < resp.length then .error ERR_INVALID
        else .ok (memcpy cms1 tpl.SignatureOff resp, tpl.CMSLen, resp.length)

/-- The C fragment `l = p[a] << 8 | p[a+1]; l -= delta; p[a] = l >> 8;
p[a+1] = l;` adjusting a long-form-2 ASN.1 length (two's-complement wrap for
an underflowing 16-bit value, as the `uint8` casts produce). -/
def adjLen2 (c : List Nat) (pos d : Nat) : List Nat :=
  let l := (rd c pos * 256 + rd c (pos + 1) + 65536 - d) % 65536
  wr (wr c pos (l / 256)) (pos + 1) (l % 256)

/-- The C fragment `l = p[a]; l -= delta; p[a] = l;` adjusting a one-byte
ASN.1 length (wrap modulo 256 as the `uint8` cast produces). -/
def adjLen1 (c : List Nat) (pos d : Nat) : List Nat :=
  wr c pos ((rd c pos + 256 - d) % 256)

/-! The ASN.1 length fix-up walk of `PatchECDSATemplate` (lines 474-529),
applied when the card returned fewer than 72 signature bytes (`d = delta`).
Each C statement block (`if (tag wrong) return ERR_TEMPLATE; adjust/skip;
p += …`) is one step function; `ecdsaFixLengths` chains them in source
order. -/

/-- Lines 477-482: outer SEQUENCE `30 82`, adjust its 16-bit length
(`p` ends at 4). -/
def ecdsaWalk1 (c : List Nat) (d : Nat) : Except Int (List Nat) :=
  if ¬(rd c 0 = 0x30 ∧ rd c 1 = 0x82) then .error ERR_TEMPLATE
  else .ok (adjLen2 c 2 d)

/-- Lines 484-486: OID `06` at offset 4, skip over it: `p += 2 + p[1]`. -/
def ecdsaWalk2 (c : List Nat) : Except Int Nat :=
  if rd c 4 ≠ 0x06 then .error ERR_TEMPLATE else .ok (4 + (2 + rd c 5))

/-- Lines 487-492: context `[0]` `A0 82` at `p`, adjust, `p += 4`. -/
def ecdsaWalk3 (c : List Nat) (p d : Nat) : Except Int (List Nat × Nat) :=
  if ¬(rd c p = 0xA0 ∧ rd c (p + 1) = 0x82) then .error ERR_TEMPLATE
  else .ok (adjLen2 c (p + 2) d, p + 4)

/-- Lines 494-499: inner SEQUENCE `30 82` at `p`, adjust, `p += 4`. -/
def ecdsaWalk4 (c : List Nat) (p d : Nat) : Except Int (List Nat × Nat) :=
  if ¬(rd c p = 0x30 ∧ rd c (p + 1) = 0x82) then .error ERR_TEMPLATE
  else .ok (adjLen2 c (p + 2) d, p + 4)

/-- Lines 501-509: a single-byte-length element with expected tag `t` at
`p`, skip over it: `p += 2 + p[1]` (used for the version INTEGER `02`, the
SET `31` and the SEQUENCE `30`). -/
def ecdsaSkip (t : Nat) (c : List Nat) (p : Nat) : Except Int Nat :=
  if rd c p ≠ t then .error ERR_TEMPLATE else .ok (p + (2 + rd c (p + 1)))

/-- Lines 510-512: context `[0]` `A0 82` at `p`, skip over its 16-bit-length
content: `p += 4 + (p[2] << 8 | p[3])`. -/
def ecdsaWalk8 (c : List Nat) (p : Nat) : Except Int Nat :=
  if ¬(rd c p = 0xA0 ∧ rd c (p + 1) = 0x82) then .error ERR_TEMPLATE
  else .ok (p + 4 + (rd c (p + 2) * 256 + rd c (p + 3)))

/-- Lines 513-524: an element with expected tag `t` and long-form-1 length
`81 len` at `p`, adjust the one-byte length, `p += 3` (used for the
signer-info SET `31 81` and SEQUENCE `30 81`). -/
def ecdsaWalk9 (t : Nat) (c : List Nat) (p d : Nat) : Except Int (List Nat × Nat) :=
  if ¬(rd c p = t ∧ rd c (p + 1) = 0x81) then .error ERR_TEMPLATE
  else .ok (adjLen1 c (p + 2) d, p + 3)

/-- The full walk (lines 477-528), source order, ending with the OCTET
STRING length byte at `sigOff - 1`. -/
def ecdsaFixLengths (cms0 : List Nat) (d sigOff : Nat) : Except Int (List Nat) :=
  match ecdsaWalk1 cms0 d with
  | .error e => .error e
  | .ok c1 =>
  match ecdsaWalk2 c1 with
  | .error e => .error e
  | .ok p2 =>
  match ecdsaWalk3 c1 p2 d with
  | .error e => .error e
  | .ok (c2, p3) =>
  match ecdsaWalk4 c2 p3 d with
  | .error e => .error e
  | .ok (c3, p4) =>
  match ecdsaSkip 0x02 c3 p4 with
  | .error e => .error e
  | .ok p5 =>
  match ecdsaSkip 0x31 c3 p5 with
  | .error e => .error e
  | .ok p6 =>
  match ecdsaSkip 0x30 c3 p6 with
  | .error e => .error e
  | .ok p7 =>
  match ecdsaWalk8 c3 p7 with
  | .error e => .error e
  | .ok p8 =>
  match ecdsaWalk9 0x31 c3 p8 d with
  | .error e => .error e
  | .ok (c4, p9) =>
  match ecdsaWalk9 0x30 c4 p9 d with
  | .error e => .error e
  | .ok (c5, _p10) =>
  .ok (adjLen1 c5 (sigOff - 1) d)

/-- `PatchECDSATemplate` (lines 455-531).  `cardResp` is the outcome of
`SC_Sign(0x70, …)`, whose response (at most `SignatureSize` bytes, by the
no-truncation rule of `SC_ProcessAPDU`) is written at `SignatureOff`.
`delta = 72 - rc`; if `delta > 0` the length walk runs and the cached
`CMSLen` is decremented by `delta` (16-bit wrap as in the C `uint16`). -/
def patchECDSATemplate (tpl : Template_t) (sha : List Nat → List Nat) (now : Tm)
    (hash : List Nat) (cardResp : Except Int (List Nat)) :
    Except Int (List Nat × Nat × Nat) :=
  match patchSignedAttributes tpl sha now hash with
  | .error e => .error e
  | .ok (cms, _hashToSign) =>
    match cardResp with
    | .error e => .error e
    | .ok resp =>
      if tpl.SignatureSize < resp.length then .error ERR_INVALID
      else
        let cms0 := memcpy cms tpl.SignatureOff resp
        let rc := resp.length
        if rc < 72 then
          let d := 72 - rc
          match ecdsaFixLengths cms0 d tpl.SignatureOff with
          | .error e => .error e
          | .ok cms1 => .ok (cms1, (tpl.CMSLen + 65536 - d) % 65536, rc)
        else .ok (cms0, tpl.CMSLen, rc)

/-- The tail of `sign_hash2` (lines 591-605) once a template `tpl` is loaded
(or reused from the cache): dispatch on `SignatureSize` (256 → RSA, 72 →
ECDSA, otherwise the stale non-negative `rc` from the preceding code — 0 or
32 — reaches the acceptance test); accept `rc ∈ {70, 71, 72, 256}` and
publish the envelope pointer together with `This->CMSLen`; any other
non-negative `rc` is `ERR_KEY_SIZE`, negative `rc` is returned as-is (and
the template cache is dropped on every error path). -/
def signWithTemplate (tpl : Template_t) (sha : List Nat → List Nat) (now : Tm)
    (hash : List Nat) (cardResp : Except Int (List Nat)) :
    Except Int (List Nat × Nat) :=
  let r : Except Int (List Nat × Nat × Nat) :=
    if tpl.SignatureSize = 256 then patchRSATemplate tpl sha now hash cardResp
    else if tpl.SignatureSize = 72 then patchECDSATemplate tpl sha now hash cardResp
    else .ok (tpl.pCms, tpl.CMSLen, 0)
  match r with
  | .error e => .error e
  | .ok (cms, len, rc) =>
    if rc = 70 ∨ rc = 71 ∨ rc = 72 ∨ rc = 256 then .ok (cms, len)
    else .error ERR_KEY_SIZE


end Ultralite


/-! # The PKCS#11 slot/session layer (src/pkcs11)

Sequential shallow embedding of the pool structures and the operations the
claims C6-C10 talk about.  Mutex acquire/release have no sequential content
and are omitted; the atomic `queuing` counters appear as state fields whose
values stand for what concurrently-running threads have pinned at the moment
the modelled operation holds the respective pool lock.  Reader/card probing
(`getPCSCToken`) is abstracted to "the slot holds a token or it does not". -/

namespace P11

/-! Standard cryptoki constants used by the embedded code. -/

def CKR_OK : Nat := 0x00

def CKR_FUNCTION_FAILED : Nat := 0x06

def CKR_ATTRIBUTE_SENSITIVE : Nat := 0x11

def CKR_ATTRIBUTE_TYPE_INVALID : Nat := 0x12

def CKR_DEVICE_ERROR : Nat := 0x30

def CKR_SLOT_ID_INVALID : Nat := 0x03

def CKR_SESSION_HANDLE_INVALID : Nat := 0xB3

def CKR_SESSION_PARALLEL_NOT_SUPPORTED : Nat := 0xB4

def CKR_SESSION_READ_WRITE_SO_EXISTS : Nat := 0xB8

def CKR_TOKEN_NOT_PRESENT : Nat := 0xE0

def CKR_BUFFER_TOO_SMALL : Nat := 0x150

def CKU_SO : Nat := 0

def CKU_USER : Nat := 1

def CKA_VALUE : Nat := 0x11

/-- `CKF_RW_SESSION = 2` is bit 1, `CKF_SERIAL_SESSION = 4` is bit 2 of the
session flags. -/
def rwFlag (flags : Nat) : Bool := flags.testBit 1

def serialFlag (flags : Nat) : Bool := flags.testBit 2

/-- `struct p11Token_t`: only the login state matters for the claims
(`userType` is `CKU_USER`, `CKU_SO`, or `0xFF` for "nobody"). -/
structure Token where
  userType : Nat
deriving Repr, DecidableEq

/-- `struct p11Slot_t`: id, session counts (C `int`), the atomic `queuing`
counter, the `present`/`closed` flags and the optional token. -/
structure Slot where
  id : Nat
  sessionCount : Int
  readOnlySessionCount : Int
  queuing : Nat
  present : Bool
  closed : Bool
  token : Option Token
deriving Repr, DecidableEq

/-- `struct p11Session_t`: handle, slot back-reference, flags, and the
atomic `queuing` counter. -/
structure Session where
  handle : Nat
  slotID : Nat
  flags : Nat
  queuing : Nat
deriving Repr, DecidableEq

/-- `struct p11SessionPool_t`. -/
structure SessionPool where
  list : List Session
  count : Int
  nextHandle : Nat
deriving Repr, DecidableEq

/-- `struct p11SlotPool_t`. -/
structure SlotPool where
  list : List Slot
  count : Int
deriving Repr, DecidableEq

/-- The process context: the two pools. -/
structure P11State where
  sessionPool : SessionPool
  slotPool : SlotPool
deriving Repr, DecidableEq

/-- `FOR_EACH_REF` + unlink in `C_CloseSession`: remove the first session
with the given handle. -/
def removeFirstSession (l : List Session) (h : Nat) : List Session :=
  match l with
  | [] => []
  | s :: rest => if s.handle = h then rest else s :: removeFirstSession rest h

/-- Writing back a mutated slot: replace the first slot with the given id
(the C code mutates the found node in place). -/
def replaceFirstSlot (l : List Slot) (id : Nat) (new : Slot) : List Slot :=
  match l with
  | [] => []
  | s :: rest => if s.id = id then new :: rest else s :: replaceFirstSlot rest id new

/-- Result record of `C_CloseSession`: the returned `CK_RV`, the new state,
whether `freeSession` ran, and whether `logOut` ran. -/
structure CloseResult where
  rv : Nat
  state : P11State
  freedSession : Bool
  loggedOut : Bool
deriving Repr, DecidableEq

/-- `C_CloseSession` (src/pkcs11/p11session.c lines 118-187): find the
session by handle (first match); a nonzero `queuing` counter means another
thread pinned the session, so fail with `CKR_FUNCTION_FAILED` and change
nothing; otherwise unlink it, look up its slot by `slotID`; if no such slot
exists return `CKR_OK` without touching any counts (and without calling
`freeSession` — the C returns straight from the `slot == NULL` check);
otherwise decrement the slot's session counts, log the user out if the count
reached zero while a user or SO was logged in, and free the session. -/
def closeSession (st : P11State) (hSession : Nat) : CloseResult :=
  match st.sessionPool.list.find? (fun s => s.handle == hSession) with
  | none => ⟨CKR_SESSION_HANDLE_INVALID, st, false, false⟩
  | some session =>
    if session.queuing ≠ 0 then ⟨CKR_FUNCTION_FAILED, st, false, false⟩
    else
      let pool2 : SessionPool :=
        { st.sessionPool with
          list := removeFirstSession st.sessionPool.list hSession,
          count := st.sessionPool.count - 1 }
      match st.slotPool.list.find? (fun sl => sl.id == session.slotID) with
      | none => ⟨CKR_OK, { st with sessionPool := pool2 }, false, false⟩
      | some slot =>
        let slot1 : Slot :=
          { slot with
            sessionCount := slot.sessionCount - 1,
            readOnlySessionCount :=
              if ¬ rwFlag session.flags then slot.readOnlySessionCount - 1
              else slot.readOnlySessionCount }
        let doLogout : Bool :=
          slot1.sessionCount == 0 &&
            (match slot1.token with
             | some t => t.userType == CKU_USER || t.userType == CKU_SO
             | none => false)
        let slot2 : Slot :=
          { slot1 with
            token :=
              if doLogout then
                slot1.token.map (fun t => { t with userType := 0xFF })
              else slot1.token }
        ⟨CKR_OK,
         { sessionPool := pool2,
           slotPool := { st.slotPool with
             list := replaceFirstSlot st.slotPool.list session.slotID slot2 } },
         true, doLogout⟩

/-- `C_OpenSession` (src/pkcs11/p11session.c lines 49-113): require the
serial flag; find the slot (`safeFindAndLockSlot`: first match by id,
`CKR_SLOT_ID_INVALID` if absent, `CKR_DEVICE_ERROR` if closed); require a
token (`getToken`); reject a read-only session while the SO is logged in;
increment the slot's counts; append the session to the pool with the next
handle (`safeAddSession`; the monotonic 64-bit counter wraps over zero).
Returns the `CK_RV`, the new state, and the new handle on success. -/
def openSession (st : P11State) (slotID flags : Nat) :
    Nat × P11State × Option Nat :=
  if ¬ serialFlag flags then (CKR_SESSION_PARALLEL_NOT_SUPPORTED, st, none)
  else
    match st.slotPool.list.find? (fun sl => sl.id == slotID) with
    | none => (CKR_SLOT_ID_INVALID, st, none)
    | some slot =>
      if slot.closed then (CKR_DEVICE_ERROR, st, none)
      else
        match slot.token with
        | none => (CKR_TOKEN_NOT_PRESENT, st, none)
        | some token =>
          if ¬ rwFlag flags ∧ token.userType = CKU_SO then
            (CKR_SESSION_READ_WRITE_SO_EXISTS, st, none)
          else
            let session : Session :=
              { handle := st.sessionPool.nextHandle, slotID := slot.id,
                flags := flags, queuing := 0 }
            let slot2 : Slot :=
              { slot with
                sessionCount := slot.sessionCount + 1,
                readOnlySessionCount :=
                  if ¬ rwFlag flags then slot.readOnlySessionCount + 1
                  else slot.readOnlySessionCount }
            let nh := (st.sessionPool.nextHandle + 1) % 2 ^ 64
            (CKR_OK,
             { sessionPool :=
                 { list := st.sessionPool.list ++ [session],
                   count := st.sessionPool.count + 1,
                   nextHandle := if nh = 0 then 1 else nh },
               slotPool := { st.slotPool with
                 list := replaceFirstSlot st.slotPool.list slotID slot2 } },
             some session.handle)

/-- The slot-removal loop of `safeUpdateSlots` (src/pkcs11/slot.c lines
493-513), run after the reconciliation pass has set each slot's `present`
flag.  The C loop walks a cursor `ppSlot`: a present slot advances the
cursor; an absent slot is marked `closed`, and then either it is deferred
(`queuing` nonzero: unlock and `continue` — which, the loop having no
increment step, re-examines the *same* slot) or the token is freed and the
slot unlinked and freed (`count--`).  `fuel` bounds the number of loop
iterations; `none` means the loop did not finish within `fuel` iterations.
In this sequential model `queuing` is constant, so a deferred slot is
re-examined forever. -/
def collectSlots (fuel : Nat) (slots : List Slot) (count : Int) :
    Option (List Slot × Int) :=
  match fuel, slots with
  | _, [] => some ([], count)
  | 0, _ :: _ => none
  | fuel + 1, slot :: rest =>
    if slot.present then
      (collectSlots fuel rest count).map (fun p => (slot :: p.1, p.2))
    else
      let slotC : Slot := { slot with closed := true }
      if slotC.queuing ≠ 0 then collectSlots fuel (slotC :: rest) count
      else collectSlots fuel rest (count - 1)

/-- `struct p11Attribute_t` content: type code and value bytes. -/
structure Attr where
  type : Nat
  value : List Nat
deriving Repr, DecidableEq

/-- The object fields `C_GetAttributeValue` consults: the attribute list and
the `sensitiveObj` flag. -/
structure ObjModel where
  attrs : List Attr
  sensitive : Bool
deriving Repr, DecidableEq

/-- One `CK_ATTRIBUTE` template cell on input: requested type, whether
`pValue` is non-NULL, and the caller's buffer capacity `ulValueLen`. -/
structure CellIn where
  type : Nat
  hasPtr : Bool
  bufLen : Nat
deriving Repr, DecidableEq

/-- One template cell on output: the written `ulValueLen` (`-1` is the
all-ones `(CK_LONG) -1` sentinel) and the bytes copied to `pValue` (`none`
when the buffer was not touched). -/
structure CellOut where
  len : Int
  written : Option (List Nat)
deriving Repr, DecidableEq

/-- The attribute loop of `C_GetAttributeValue` (src/pkcs11/p11objects.c
lines 347-380), carrying the running `rv` (initially `CKR_OK`, overwritten
by each error case and never reset): unknown type → sentinel length,
`CKR_ATTRIBUTE_TYPE_INVALID`; `CKA_VALUE` on a sensitive object → sentinel,
`CKR_ATTRIBUTE_SENSITIVE`; NULL `pValue` → write the length only; buffer
large enough → copy and write the length; otherwise → write the length,
`CKR_BUFFER_TOO_SMALL`. -/
def getAttrLoop (obj : ObjModel) (rv : Nat) (cells : List CellIn) :
    Nat × List CellOut :=
  match cells with
  | [] => (rv, [])
  | c :: rest =>
    match obj.attrs.find? (fun a => a.type == c.type) with
    | none =>
      let r := getAttrLoop obj CKR_ATTRIBUTE_TYPE_INVALID rest
      (r.1, ⟨-1, none⟩ :: r.2)
    | some a =>
      if a.type = CKA_VALUE ∧ obj.sensitive then
        let r := getAttrLoop obj CKR_ATTRIBUTE_SENSITIVE rest
        (r.1, ⟨-1, none⟩ :: r.2)
      else if ¬ c.hasPtr then
        let r := getAttrLoop obj rv rest
        (r.1, ⟨a.value.length, none⟩ :: r.2)
      else if a.value.length ≤ c.bufLen then
        let r := getAttrLoop obj rv rest
        (r.1, ⟨a.value.length, some a.value⟩ :: r.2)
      else
        let r := getAttrLoop obj CKR_BUFFER_TOO_SMALL rest
        (r.1, ⟨a.value.length, none⟩ :: r.2)

/-- `C_GetAttributeValue` on a found object: run the loop with `rv = CKR_OK`. -/
def cGetAttributeValue (obj : ObjModel) (cells : List CellIn) :
    Nat × List CellOut :=
  getAttrLoop obj CKR_OK cells

/-- Comparison definition for C9, written from the spec's per-cell policy:
the error kind a cell produces, if any. -/
def cellVerdict (obj : ObjModel) (c : CellIn) : Option Nat :=
  match obj.attrs.find? (fun a => a.type == c.type) with
  | none => some CKR_ATTRIBUTE_TYPE_INVALID
  | some a =>
    if a.type = CKA_VALUE ∧ obj.sensitive then some CKR_ATTRIBUTE_SENSITIVE
    else if ¬ c.hasPtr then none
    else if a.value.length ≤ c.bufLen then none
    else some CKR_BUFFER_TOO_SMALL

/-- Comparison definition for C9, written from the spec's per-cell policy:
the populated output cell. -/
def cellOutSpec (obj : ObjModel) (c : CellIn) : CellOut :=
  match obj.attrs.find? (fun a => a.type == c.type) with
  | none => ⟨-1, none⟩
  | some a =>
    if a.type = CKA_VALUE ∧ obj.sensitive then ⟨-1, none⟩
    else if ¬ c.hasPtr then ⟨a.value.length, none⟩
    else if a.value.length ≤ c.bufLen then ⟨a.value.length, some a.value⟩
    else ⟨a.value.length, none⟩

/-- The session-count invariant of spec §8 (claim C8): for every slot, the
counts equal the number of (read-only) sessions bound to its id. -/
def poolInvariant (st : P11State) : Prop :=
  ∀ slot ∈ st.slotPool.list,
    slot.sessionCount =
      ((st.sessionPool.list.filter (fun s => s.slotID == slot.id)).length : Int) ∧
    slot.readOnlySessionCount =
      ((st.sessionPool.list.filter
        (fun s => s.slotID == slot.id && ! rwFlag s.flags)).length : Int)


end P11

/-- Two ASCII digit bytes read back as a number. -/
def decode2 (l : List Nat) (i : Nat) : Nat :=
  10 * (Ultralite.rd l i - 48) + (Ultralite.rd l (i + 1) - 48)

namespace Ultralite

/-! ## Lemmas about the byte-buffer primitives -/

theorem length_wr (l : List Nat) (i v : Nat) : (wr l i v).length = l.length := by
  simp [wr]

theorem rd_wr_self (l : List Nat) (i v : Nat) (h : i < l.length) :
    rd (wr l i v) i = v := by
  simp [rd, wr, List.getD_eq_getElem?_getD, List.getElem?_set_self, h]

theorem rd_wr_ne (l : List Nat) {i j : Nat} (v : Nat) (h : i ≠ j) :
    rd (wr l i v) j = rd l j := by
  simp [rd, wr, List.getD_eq_getElem?_getD, List.getElem?_set_ne h]

theorem rd_lt_256 (l : List Nat) (h : ∀ b ∈ l, b < 256) (i : Nat) : rd l i < 256 := by
  rcases lt_or_ge i l.length with hi | hi
  · have := h (l.get ⟨i, hi⟩) (l.get_mem _ _)
    simpa [rd, List.getD_eq_getElem?_getD, List.getElem?_eq_getElem hi] using this
  · simp [rd, List.getD_eq_getElem?_getD, List.getElem?_eq_none hi]

theorem length_memcpy (src : List Nat) :
    ∀ (l : List Nat) (off : Nat), (memcpy l off src).length = l.length := by
  induction src with
  | nil => intro l off; rfl
  | cons b rest ih => intro l off; rw [memcpy, ih, length_wr]

theorem rd_memcpy_lt (src : List Nat) :
    ∀ (l : List Nat) (off j : Nat), j < off → rd (memcpy l off src) j = rd l j := by
  induction src with
  | nil => intro l off j _; rfl
  | cons b rest ih =>
    intro l off j h
    rw [memcpy, ih _ _ _ (by omega), rd_wr_ne _ _ (by omega)]

theorem rd_memcpy_ge (src : List Nat) :
    ∀ (l : List Nat) (off j : Nat), off + src.length ≤ j →
      rd (memcpy l off src) j = rd l j := by
  induction src with
  | nil => intro l off j _; rfl
  | cons b rest ih =>
    intro l off j h
    simp only [List.length_cons] at h
    rw [memcpy, ih _ _ _ (by omega), rd_wr_ne _ _ (by omega)]

theorem rd_memcpy_mid (src : List Nat) :
    ∀ (l : List Nat) (off j : Nat), off ≤ j → j < off + src.length →
      j < l.length → rd (memcpy l off src) j = rd src (j - off) := by
  induction src with
  | nil =>
    intro l off j h1 h2 _
    simp only [List.length_nil] at h2
    omega
  | cons b rest ih =>
    intro l off j h1 h2 h3
    rcases eq_or_lt_of_le h1 with heq | hlt
    · subst heq
      rw [memcpy, rd_memcpy_lt rest _ _ _ (by omega), rd_wr_self _ _ _ h3]
      simp [rd]
    · have hj : j - off = (j - off - 1) + 1 := by omega
      simp only [List.length_cons] at h2
      rw [memcpy, ih _ _ _ (by omega) (by omega) (by rw [length_wr]; exact h3), hj]
      have : j - (off + 1) = j - off - 1 := by omega
      rw [this]
      simp [rd]

theorem rd_replicate (n a i : Nat) (h : i < n) : rd (List.replicate n a) i = a := by
  simp [rd, List.getD_eq_getElem?_getD, List.getElem?_replicate, h]

theorem rd_take (l : List Nat) (n i : Nat) (h : i < n) : rd (l.take n) i = rd l i := by
  simp [rd, List.getD_eq_getElem?_getD, List.getElem?_take, h]

set_option maxRecDepth 20000 in
/-- Byte-level characterisation of the PKCS#1 v1.5 block built by
`PatchRSATemplate` for `SignatureSize = 256`: `0x00, 0x01`, 202 bytes of
`0xFF`, `0x00`, the 19-byte SHA-256 DigestInfo, the 32-byte attribute hash
(202 = 256 − 3 − 19 − 32); bytes outside the signature region are not
touched. -/
theorem buildRSABlock_bytes (cms : List Nat) (sigOff : Nat) (h2s : List Nat)
    (hlen : sigOff + 256 ≤ cms.length) (hh : 32 ≤ h2s.length) :
    (buildRSABlockAt cms sigOff 256 h2s).length = cms.length ∧
    rd (buildRSABlockAt cms sigOff 256 h2s) sigOff = 0 ∧
    rd (buildRSABlockAt cms sigOff 256 h2s) (sigOff + 1) = 1 ∧
    (∀ k, 2 ≤ k → k < 204 →
      rd (buildRSABlockAt cms sigOff 256 h2s) (sigOff + k) = 0xFF) ∧
    rd (buildRSABlockAt cms sigOff 256 h2s) (sigOff + 204) = 0 ∧
    (∀ k, k < 19 →
      rd (buildRSABlockAt cms sigOff 256 h2s) (sigOff + 205 + k) = rd encSHA256 k) ∧
    (∀ k, k < 32 →
      rd (buildRSABlockAt cms sigOff 256 h2s) (sigOff + 224 + k) = rd h2s k) ∧
    (∀ j, j < sigOff ∨ sigOff + 256 ≤ j →
      rd (buildRSABlockAt cms sigOff 256 h2s) j = rd cms j) := by
  have htk : (h2s.take 32).length = 32 := by simp [List.length_take, hh]
  have henc : encSHA256.length = 19 := rfl
  have hrep : (List.replicate 202 0xFF).length = 202 := rfl
  unfold buildRSABlockAt
  simp only [show (256 : Nat) - 32 = 224 from rfl, show (224 : Nat) - 19 = 205 from rfl,
    show (205 : Nat) - 1 = 204 from rfl, show (204 : Nat) - 2 = 202 from rfl,
    Nat.add_zero]
  refine ⟨?_, ?_, ?_, ?_, ?_, ?_, ?_, ?_⟩
  · simp only [length_wr, length_memcpy]
  · rw [rd_wr_self]
    simp only [length_wr, length_memcpy]
    omega
  · rw [rd_wr_ne _ _ (by omega), rd_wr_self]
    simp only [length_wr, length_memcpy]
    omega
  · intro k hk2 hk204
    rw [rd_wr_ne _ _ (by omega), rd_wr_ne _ _ (by omega),
      rd_memcpy_mid _ _ _ _ (by omega) (by rw [hrep]; omega)
        (by simp only [length_wr, length_memcpy]; omega)]
    have hix : sigOff + k - (sigOff + 2) = k - 2 := by omega
    rw [hix, rd_replicate _ _ _ (by omega)]
  · rw [rd_wr_ne _ _ (by omega), rd_wr_ne _ _ (by omega),
      rd_memcpy_ge _ _ _ _ (by rw [hrep]), rd_wr_self]
    simp only [length_memcpy]
    omega
  · intro k hk
    rw [rd_wr_ne _ _ (by omega), rd_wr_ne _ _ (by omega),
      rd_memcpy_ge _ _ _ _ (by rw [hrep]; omega), rd_wr_ne _ _ (by omega),
      rd_memcpy_mid _ _ _ _ (by omega) (by rw [henc]; omega)
        (by simp only [length_memcpy]; omega)]
    congr 1
    omega
  · intro k hk
    rw [rd_wr_ne _ _ (by omega), rd_wr_ne _ _ (by omega),
      rd_memcpy_ge _ _ _ _ (by rw [hrep]; omega), rd_wr_ne _ _ (by omega),
      rd_memcpy_ge _ _ _ _ (by rw [henc]; omega),
      rd_memcpy_mid _ _ _ _ (by omega) (by rw [htk]; omega) (by omega)]
    have hix : sigOff + 224 + k - (sigOff + 224) = k := by omega
    rw [hix, rd_take _ _ _ hk]
  · intro j hj
    rcases hj with hj | hj
    · rw [rd_wr_ne _ _ (by omega), rd_wr_ne _ _ (by omega),
        rd_memcpy_lt _ _ _ _ (by omega), rd_wr_ne _ _ (by omega),
        rd_memcpy_lt _ _ _ _ (by omega), rd_memcpy_lt _ _ _ _ (by omega)]
    · rw [rd_wr_ne _ _ (by omega), rd_wr_ne _ _ (by omega),
        rd_memcpy_ge _ _ _ _ (by rw [hrep]; omega), rd_wr_ne _ _ (by omega),
        rd_memcpy_ge _ _ _ _ (by rw [henc]; omega),
        rd_memcpy_ge _ _ _ _ (by rw [htk]; omega)]

theorem length_adjLen2 (c : List Nat) (pos d : Nat) :
    (adjLen2 c pos d).length = c.length := by
  simp [adjLen2, length_wr]

theorem length_adjLen1 (c : List Nat) (pos d : Nat) :
    (adjLen1 c pos d).length = c.length := by
  simp [adjLen1, length_wr]

theorem rd_adjLen2_ne (c : List Nat) {pos j : Nat} (d : Nat)
    (h1 : j ≠ pos) (h2 : j ≠ pos + 1) : rd (adjLen2 c pos d) j = rd c j := by
  unfold adjLen2
  rw [rd_wr_ne _ _ (by omega), rd_wr_ne _ _ (by omega)]

theorem rd_adjLen1_ne (c : List Nat) {pos j : Nat} (d : Nat)
    (h1 : j ≠ pos) : rd (adjLen1 c pos d) j = rd c j := by
  unfold adjLen1
  rw [rd_wr_ne _ _ (by omega)]

theorem adjLen2_val (c : List Nat) (pos d : Nat) (hlen : pos + 1 < c.length)
    (hb0 : rd c pos < 256) (hb1 : rd c (pos + 1) < 256)
    (hd : d ≤ rd c pos * 256 + rd c (pos + 1)) :
    rd (adjLen2 c pos d) pos * 256 + rd (adjLen2 c pos d) (pos + 1) =
      rd c pos * 256 + rd c (pos + 1) - d := by
  unfold adjLen2
  rw [rd_wr_ne _ _ (by omega), rd_wr_self _ _ _ (by omega),
    rd_wr_self _ _ _ (by rw [length_wr]; omega)]
  omega

theorem adjLen1_val (c : List Nat) (pos d : Nat) (hlen : pos < c.length)
    (hb : rd c pos < 256) (hd : d ≤ rd c pos) :
    rd (adjLen1 c pos d) pos = rd c pos - d := by
  unfold adjLen1
  rw [rd_wr_self _ _ _ hlen]
  omega

theorem ecdsaWalk1_error (c : List Nat) (d : Nat) (e : Int)
    (h : ecdsaWalk1 c d = .error e) : e = ERR_TEMPLATE := by
  unfold ecdsaWalk1 at h
  split_ifs at h
  injection h with h2
  exact h2.symm

theorem ecdsaWalk2_error (c : List Nat) (e : Int)
    (h : ecdsaWalk2 c = .error e) : e = ERR_TEMPLATE := by
  unfold ecdsaWalk2 at h
  split_ifs at h
  injection h with h2
  exact h2.symm

theorem ecdsaWalk3_error (c : List Nat) (p d : Nat) (e : Int)
    (h : ecdsaWalk3 c p d = .error e) : e = ERR_TEMPLATE := by
  unfold ecdsaWalk3 at h
  split_ifs at h
  injection h with h2
  exact h2.symm

theorem ecdsaWalk4_error (c : List Nat) (p d : Nat) (e : Int)
    (h : ecdsaWalk4 c p d = .error e) : e = ERR_TEMPLATE := by
  unfold ecdsaWalk4 at h
  split_ifs at h
  injection h with h2
  exact h2.symm

theorem ecdsaSkip_error (t : Nat) (c : List Nat) (p : Nat) (e : Int)
    (h : ecdsaSkip t c p = .error e) : e = ERR_TEMPLATE := by
  unfold ecdsaSkip at h
  split_ifs at h
  injection h with h2
  exact h2.symm

theorem ecdsaWalk8_error (c : List Nat) (p : Nat) (e : Int)
    (h : ecdsaWalk8 c p = .error e) : e = ERR_TEMPLATE := by
  unfold ecdsaWalk8 at h
  split_ifs at h
  injection h with h2
  exact h2.symm

theorem ecdsaWalk9_error (t : Nat) (c : List Nat) (p d : Nat) (e : Int)
    (h : ecdsaWalk9 t c p d = .error e) : e = ERR_TEMPLATE := by
  unfold ecdsaWalk9 at h
  split_ifs at h
  injection h with h2
  exact h2.symm

/-- The only failure mode of the ECDSA length walk is `ERR_TEMPLATE`
("template malformed"). -/
theorem ecdsaFixLengths_error (cms0 : List Nat) (d sigOff : Nat) (e : Int)
    (h : ecdsaFixLengths cms0 d sigOff = .error e) : e = ERR_TEMPLATE := by
  unfold ecdsaFixLengths at h
  cases h1 : ecdsaWalk1 cms0 d with
  | error e1 =>
    rw [h1] at h; dsimp only at h; injection h with h2
    exact h2.symm.trans (ecdsaWalk1_error _ _ _ h1)
  | ok c1 =>
  rw [h1] at h; dsimp only at h
  cases h2 : ecdsaWalk2 c1 with
  | error e1 =>
    rw [h2] at h; dsimp only at h; injection h with hx
    exact hx.symm.trans (ecdsaWalk2_error _ _ h2)
  | ok p2 =>
  rw [h2] at h; dsimp only at h
  cases h3 : ecdsaWalk3 c1 p2 d with
  | error e1 =>
    rw [h3] at h; dsimp only at h; injection h with hx
    exact hx.symm.trans (ecdsaWalk3_error _ _ _ _ h3)
  | ok pr3 =>
  obtain ⟨c2, p3⟩ := pr3
  rw [h3] at h; dsimp only at h
  cases h4 : ecdsaWalk4 c2 p3 d with
  | error e1 =>
    rw [h4] at h; dsimp only at h; injection h with hx
    exact hx.symm.trans (ecdsaWalk4_error _ _ _ _ h4)
  | ok pr4 =>
  obtain ⟨c3, p4⟩ := pr4
  rw [h4] at h; dsimp only at h
  cases h5 : ecdsaSkip 0x02 c3 p4 with
  | error e1 =>
    rw [h5] at h; dsimp only at h; injection h with hx
    exact hx.symm.trans (ecdsaSkip_error _ _ _ _ h5)
  | ok p5 =>
  rw [h5] at h; dsimp only at h
  cases h6 : ecdsaSkip 0x31 c3 p5 with
  | error e1 =>
    rw [h6] at h; dsimp only at h; injection h with hx
    exact hx.symm.trans (ecdsaSkip_error _ _ _ _ h6)
  | ok p6 =>
  rw [h6] at h; dsimp only at h
  cases h7 : ecdsaSkip 0x30 c3 p6 with
  | error e1 =>
    rw [h7] at h; dsimp only at h; injection h with hx
    exact hx.symm.trans (ecdsaSkip_error _ _ _ _ h7)
  | ok p7 =>
  rw [h7] at h; dsimp only at h
  cases h8 : ecdsaWalk8 c3 p7 with
  | error e1 =>
    rw [h8] at h; dsimp only at h; injection h with hx
    exact hx.symm.trans (ecdsaWalk8_error _ _ _ h8)
  | ok p8 =>
  rw [h8] at h; dsimp only at h
  cases h9 : ecdsaWalk9 0x31 c3 p8 d with
  | error e1 =>
    rw [h9] at h; dsimp only at h; injection h with hx
    exact hx.symm.trans (ecdsaWalk9_error _ _ _ _ _ h9)
  | ok pr9 =>
  obtain ⟨c4, p9⟩ := pr9
  rw [h9] at h; dsimp only at h
  cases h10 : ecdsaWalk9 0x30 c4 p9 d with
  | error e1 =>
    rw [h10] at h; dsimp only at h; injection h with hx
    exact hx.symm.trans (ecdsaWalk9_error _ _ _ _ _ h10)
  | ok pr10 =>
  obtain ⟨c5, p10⟩ := pr10
  rw [h10] at h; dsimp only at h
  exact Except.noConfusion h

/-- Characterisation of a successful ECDSA length walk: when the envelope
carries the expected tag bytes at the walked positions (`p2 … p9` are the
cursor values the C code computes), the walk succeeds and the result is the
input envelope with exactly the five ancestor length fields and the OCTET
STRING length byte at `sigOff - 1` decremented by `d`, everything else
unchanged. -/
theorem ecdsaFixLengths_ok (cms0 : List Nat) (d sigOff : Nat)
    (p2 p3 p4 p5 p6 p7 p8 p9 : Nat)
    (hbytes : ∀ b ∈ cms0, b < 256)
    (hp2 : p2 = 6 + rd cms0 5) (hp3 : p3 = p2 + 4) (hp4 : p4 = p3 + 4)
    (hp5 : p5 = p4 + 2 + rd cms0 (p4 + 1))
    (hp6 : p6 = p5 + 2 + rd cms0 (p5 + 1))
    (hp7 : p7 = p6 + 2 + rd cms0 (p6 + 1))
    (hp8 : p8 = p7 + 4 + (rd cms0 (p7 + 2) * 256 + rd cms0 (p7 + 3)))
    (hp9 : p9 = p8 + 3)
    (t0 : rd cms0 0 = 0x30) (t1 : rd cms0 1 = 0x82)
    (t2 : rd cms0 4 = 0x06)
    (t3 : rd cms0 p2 = 0xA0) (t4 : rd cms0 (p2 + 1) = 0x82)
    (t5 : rd cms0 p3 = 0x30) (t6 : rd cms0 (p3 + 1) = 0x82)
    (t7 : rd cms0 p4 = 0x02) (t8 : rd cms0 p5 = 0x31) (t9 : rd cms0 p6 = 0x30)
    (t10 : rd cms0 p7 = 0xA0) (t11 : rd cms0 (p7 + 1) = 0x82)
    (t12 : rd cms0 p8 = 0x31) (t13 : rd cms0 (p8 + 1) = 0x81)
    (t14 : rd cms0 p9 = 0x30) (t15 : rd cms0 (p9 + 1) = 0x81)
    (hl0 : d ≤ rd cms0 2 * 256 + rd cms0 3)
    (hl1 : d ≤ rd cms0 (p2 + 2) * 256 + rd cms0 (p2 + 3))
    (hl2 : d ≤ rd cms0 (p3 + 2) * 256 + rd cms0 (p3 + 3))
    (hl3 : d ≤ rd cms0 (p8 + 2)) (hl4 : d ≤ rd cms0 (p9 + 2))
    (hl5 : d ≤ rd cms0 (sigOff - 1))
    (hord : p9 + 2 < sigOff - 1) (hrange : sigOff ≤ cms0.length) :
    ∃ cms1,
      ecdsaFixLengths cms0 d sigOff = .ok cms1 ∧
      cms1.length = cms0.length ∧
      rd cms1 2 * 256 + rd cms1 3 = rd cms0 2 * 256 + rd cms0 3 - d ∧
      rd cms1 (p2 + 2) * 256 + rd cms1 (p2 + 3) =
        rd cms0 (p2 + 2) * 256 + rd cms0 (p2 + 3) - d ∧
      rd cms1 (p3 + 2) * 256 + rd cms1 (p3 + 3) =
        rd cms0 (p3 + 2) * 256 + rd cms0 (p3 + 3) - d ∧
      rd cms1 (p8 + 2) = rd cms0 (p8 + 2) - d ∧
      rd cms1 (p9 + 2) = rd cms0 (p9 + 2) - d ∧
      rd cms1 (sigOff - 1) = rd cms0 (sigOff - 1) - d ∧
      (∀ j, j ≠ 2 → j ≠ 3 → j ≠ p2 + 2 → j ≠ p2 + 3 → j ≠ p3 + 2 → j ≠ p3 + 3 →
        j ≠ p8 + 2 → j ≠ p9 + 2 → j ≠ sigOff - 1 → rd cms1 j = rd cms0 j) := by
  have hb : ∀ i, rd cms0 i < 256 := rd_lt_256 cms0 hbytes
  set A := adjLen2 cms0 2 d with hA
  set B := adjLen2 A (p2 + 2) d with hB
  set C := adjLen2 B (p3 + 2) d with hC
  set D := adjLen1 C (p8 + 2) d with hD
  set E := adjLen1 D (p9 + 2) d with hE
  set W := adjLen1 E (sigOff - 1) d with hW
  have lA : A.length = cms0.length := length_adjLen2 _ _ _
  have lB : B.length = cms0.length := by rw [hB, length_adjLen2, lA]
  have lC : C.length = cms0.length := by rw [hC, length_adjLen2, lB]
  have lD : D.length = cms0.length := by rw [hD, length_adjLen1, lC]
  have lE : E.length = cms0.length := by rw [hE, length_adjLen1, lD]
  have lW : W.length = cms0.length := by rw [hW, length_adjLen1, lE]
  have rA : ∀ j, j ≠ 2 → j ≠ 3 → rd A j = rd cms0 j := by
    intro j h1 h2
    rw [hA, rd_adjLen2_ne _ _ h1 (by omega)]
  have uB : ∀ j, j ≠ p2 + 2 → j ≠ p2 + 3 → rd B j = rd A j := by
    intro j h1 h2
    rw [hB, rd_adjLen2_ne _ _ h1 (by omega)]
  have uC : ∀ j, j ≠ p3 + 2 → j ≠ p3 + 3 → rd C j = rd B j := by
    intro j h1 h2
    rw [hC, rd_adjLen2_ne _ _ h1 (by omega)]
  have uD : ∀ j, j ≠ p8 + 2 → rd D j = rd C j := by
    intro j h1
    rw [hD, rd_adjLen1_ne _ _ h1]
  have uE : ∀ j, j ≠ p9 + 2 → rd E j = rd D j := by
    intro j h1
    rw [hE, rd_adjLen1_ne _ _ h1]
  have uW : ∀ j, j ≠ sigOff - 1 → rd W j = rd E j := by
    intro j h1
    rw [hW, rd_adjLen1_ne _ _ h1]
  have rB : ∀ j, j ≠ 2 → j ≠ 3 → j ≠ p2 + 2 → j ≠ p2 + 3 → rd B j = rd cms0 j := by
    intro j h1 h2 h3 h4
    rw [uB j h3 h4, rA j h1 h2]
  have rC : ∀ j, j ≠ 2 → j ≠ 3 → j ≠ p2 + 2 → j ≠ p2 + 3 → j ≠ p3 + 2 →
      j ≠ p3 + 3 → rd C j = rd cms0 j := by
    intro j h1 h2 h3 h4 h5 h6
    rw [uC j h5 h6, rB j h1 h2 h3 h4]
  have rD : ∀ j, j ≠ 2 → j ≠ 3 → j ≠ p2 + 2 → j ≠ p2 + 3 → j ≠ p3 + 2 →
      j ≠ p3 + 3 → j ≠ p8 + 2 → rd D j = rd cms0 j := by
    intro j h1 h2 h3 h4 h5 h6 h7
    rw [uD j h7, rC j h1 h2 h3 h4 h5 h6]
  -- the walk steps, in source order
  have s1 : ecdsaWalk1 cms0 d = .ok A := by
    rw [ecdsaWalk1, if_neg (not_not_intro ⟨t0, t1⟩), hA]
  have s2 : ecdsaWalk2 A = .ok p2 := by
    rw [ecdsaWalk2, rA 4 (by omega) (by omega), rA 5 (by omega) (by omega),
      if_neg (by simp [t2])]
    exact congrArg Except.ok (by omega)
  have s3 : ecdsaWalk3 A p2 d = .ok (B, p3) := by
    rw [ecdsaWalk3, rA p2 (by omega) (by omega), rA (p2 + 1) (by omega) (by omega),
      if_neg (not_not_intro ⟨t3, t4⟩), ← hB, ← hp3]
  have s4 : ecdsaWalk4 B p3 d = .ok (C, p4) := by
    rw [ecdsaWalk4, rB p3 (by omega) (by omega) (by omega) (by omega),
      rB (p3 + 1) (by omega) (by omega) (by omega) (by omega),
      if_neg (not_not_intro ⟨t5, t6⟩), ← hC, ← hp4]
  have s5 : ecdsaSkip 0x02 C p4 = .ok p5 := by
    rw [ecdsaSkip,
      rC p4 (by omega) (by omega) (by omega) (by omega) (by omega) (by omega),
      rC (p4 + 1) (by omega) (by omega) (by omega) (by omega) (by omega) (by omega),
      if_neg (by simp [t7])]
    exact congrArg Except.ok (by omega)
  have s6 : ecdsaSkip 0x31 C p5 = .ok p6 := by
    rw [ecdsaSkip,
      rC p5 (by omega) (by omega) (by omega) (by omega) (by omega) (by omega),
      rC (p5 + 1) (by omega) (by omega) (by omega) (by omega) (by omega) (by omega),
      if_neg (by simp [t8])]
    exact congrArg Except.ok (by omega)
  have s7 : ecdsaSkip 0x30 C p6 = .ok p7 := by
    rw [ecdsaSkip,
      rC p6 (by omega) (by omega) (by omega) (by omega) (by omega) (by omega),
      rC (p6 + 1) (by omega) (by omega) (by omega) (by omega) (by omega) (by omega),
      if_neg (by simp [t9])]
    exact congrArg Except.ok (by omega)
  have s8 : ecdsaWalk8 C p7 = .ok p8 := by
    rw [ecdsaWalk8,
      rC p7 (by omega) (by omega) (by omega) (by omega) (by omega) (by omega),
      rC (p7 + 1) (by omega) (by omega) (by omega) (by omega) (by omega) (by omega),
      rC (p7 + 2) (by omega) (by omega) (by omega) (by omega) (by omega) (by omega),
      rC (p7 + 3) (by omega) (by omega) (by omega) (by omega) (by omega) (by omega),
      if_neg (not_not_intro ⟨t10, t11⟩)]
    exact congrArg Except.ok (by omega)
  have s9 : ecdsaWalk9 0x31 C p8 d = .ok (D, p9) := by
    rw [ecdsaWalk9,
      rC p8 (by omega) (by omega) (by omega) (by omega) (by omega) (by omega),
      rC (p8 + 1) (by omega) (by omega) (by omega) (by omega) (by omega) (by omega),
      if_neg (not_not_intro ⟨t12, t13⟩), ← hD, ← hp9]
  have s10 : ecdsaWalk9 0x30 D p9 d = .ok (E, p9 + 3) := by
    rw [ecdsaWalk9,
      rD p9 (by omega) (by omega) (by omega) (by omega) (by omega) (by omega)
        (by omega),
      rD (p9 + 1) (by omega) (by omega) (by omega) (by omega) (by omega) (by omega)
        (by omega),
      if_neg (not_not_intro ⟨t14, t15⟩), ← hE]
  have hfix : ecdsaFixLengths cms0 d sigOff = .ok W := by
    unfold ecdsaFixLengths
    rw [s1]; dsimp only
    rw [s2]; dsimp only
    rw [s3]; dsimp only
    rw [s4]; dsimp only
    rw [s5]; dsimp only
    rw [s6]; dsimp only
    rw [s7]; dsimp only
    rw [s8]; dsimp only
    rw [s9]; dsimp only
    rw [s10]
  refine ⟨W, hfix, lW, ?_, ?_, ?_, ?_, ?_, ?_, ?_⟩
  · rw [uW 2 (by omega), uW 3 (by omega), uE 2 (by omega), uE 3 (by omega),
      uD 2 (by omega), uD 3 (by omega), uC 2 (by omega) (by omega),
      uC 3 (by omega) (by omega), uB 2 (by omega) (by omega),
      uB 3 (by omega) (by omega), hA]
    have := adjLen2_val cms0 2 d (by omega) (hb 2) (hb 3) hl0
    simpa using this
  · rw [uW _ (by omega), uW _ (by omega), uE _ (by omega), uE _ (by omega),
      uD _ (by omega), uD _ (by omega), uC _ (by omega) (by omega),
      uC _ (by omega) (by omega), hB]
    have hv := adjLen2_val A (p2 + 2) d (by rw [lA]; omega)
      (by rw [rA _ (by omega) (by omega)]; exact hb _)
      (by rw [show p2 + 2 + 1 = p2 + 3 from rfl, rA _ (by omega) (by omega)]
          exact hb _)
      (by rw [rA _ (by omega) (by omega),
            show p2 + 2 + 1 = p2 + 3 from rfl, rA _ (by omega) (by omega)]
          exact hl1)
    rw [show p2 + 2 + 1 = p2 + 3 from rfl] at hv
    rw [hv, rA _ (by omega) (by omega), rA _ (by omega) (by omega)]
  · rw [uW _ (by omega), uW _ (by omega), uE _ (by omega), uE _ (by omega),
      uD _ (by omega), uD _ (by omega), hC]
    have hv := adjLen2_val B (p3 + 2) d (by rw [lB]; omega)
      (by rw [rB _ (by omega) (by omega) (by omega) (by omega)]; exact hb _)
      (by rw [show p3 + 2 + 1 = p3 + 3 from rfl,
            rB _ (by omega) (by omega) (by omega) (by omega)]
          exact hb _)
      (by rw [rB _ (by omega) (by omega) (by omega) (by omega),
            show p3 + 2 + 1 = p3 + 3 from rfl,
            rB _ (by omega) (by omega) (by omega) (by omega)]
          exact hl2)
    rw [show p3 + 2 + 1 = p3 + 3 from rfl] at hv
    rw [hv, rB _ (by omega) (by omega) (by omega) (by omega),
      rB _ (by omega) (by omega) (by omega) (by omega)]
  · rw [uW _ (by omega), uE _ (by omega), hD]
    have hv := adjLen1_val C (p8 + 2) d (by rw [lC]; omega)
      (by rw [rC _ (by omega) (by omega) (by omega) (by omega) (by omega)
            (by omega)]
          exact hb _)
      (by rw [rC _ (by omega) (by omega) (by omega) (by omega) (by omega)
            (by omega)]
          exact hl3)
    rw [hv, rC _ (by omega) (by omega) (by omega) (by omega) (by omega) (by omega)]
  · rw [uW _ (by omega), hE]
    have hv := adjLen1_val D (p9 + 2) d (by rw [lD]; omega)
      (by rw [rD _ (by omega) (by omega) (by omega) (by omega) (by omega)
            (by omega) (by omega)]
          exact hb _)
      (by rw [rD _ (by omega) (by omega) (by omega) (by omega) (by omega)
            (by omega) (by omega)]
          exact hl4)
    rw [hv, rD _ (by omega) (by omega) (by omega) (by omega) (by omega) (by omega)
      (by omega)]
  · rw [hW]
    have hv := adjLen1_val E (sigOff - 1) d (by rw [lE]; omega)
      (by rw [uE _ (by omega), rD _ (by omega) (by omega) (by omega) (by omega)
            (by omega) (by omega) (by omega)]
          exact hb _)
      (by rw [uE _ (by omega), rD _ (by omega) (by omega) (by omega) (by omega)
            (by omega) (by omega) (by omega)]
          exact hl5)
    rw [hv, uE _ (by omega), rD _ (by omega) (by omega) (by omega) (by omega)
      (by omega) (by omega) (by omega)]
  · intro j h1 h2 h3 h4 h5 h6 h7 h8 h9
    rw [uW j h9, uE j h8, rD j h1 h2 h3 h4 h5 h6 h7]

/-- Forward evaluation of `PatchECDSATemplate` once the time guard passed and
the response fits the signature buffer. -/
theorem patchECDSATemplate_eval (tpl : Template_t) (sha : List Nat → List Nat)
    (now : Tm) (hash resp : List Nat)
    (hy1 : 113 ≤ now.tm_year) (hy2 : now.tm_year < 150)
    (hcap : resp.length ≤ tpl.SignatureSize) :
    patchECDSATemplate tpl sha now hash (.ok resp) =
      if resp.length < 72 then
        match ecdsaFixLengths (memcpy (patchedAttrCms tpl now hash)
            tpl.SignatureOff resp) (72 - resp.length) tpl.SignatureOff with
        | .error e => .error e
        | .ok cms1 =>
          .ok (cms1, (tpl.CMSLen + 65536 - (72 - resp.length)) % 65536, resp.length)
      else .ok (memcpy (patchedAttrCms tpl now hash) tpl.SignatureOff resp,
                tpl.CMSLen, resp.length) := by
  have hps : patchSignedAttributes tpl sha now hash =
      .ok (patchedAttrCms tpl now hash, attrHashToSign tpl sha now hash) := by
    rw [patchSignedAttributes, if_neg (by omega)]
  rw [patchECDSATemplate, hps]
  dsimp only
  rw [if_neg (by omega)]

/-- Components of a successful `PatchRSATemplate`: the published `CMSLen` is
unchanged and `rc` is the response length. -/
theorem patchRSATemplate_ok (tpl : Template_t) (sha : List Nat → List Nat)
    (now : Tm) (hash resp : List Nat) (cms : List Nat) (len rc : Nat)
    (h : patchRSATemplate tpl sha now hash (.ok resp) = .ok (cms, len, rc)) :
    len = tpl.CMSLen ∧ rc = resp.length := by
  unfold patchRSATemplate at h
  by_cases ht : ¬(2013 - 1900 ≤ now.tm_year ∧ now.tm_year < 2050 - 1900)
  · rw [show patchSignedAttributes tpl sha now hash = .error ERR_TIME from
      by rw [patchSignedAttributes, if_pos ht]] at h
    exact absurd h (by simp)
  · rw [show patchSignedAttributes tpl sha now hash =
        .ok (patchedAttrCms tpl now hash, attrHashToSign tpl sha now hash) from
      by rw [patchSignedAttributes, if_neg ht]] at h
    dsimp only at h
    by_cases hh : hash.length ≠ 32
    · rw [if_pos hh] at h; exact absurd h (by simp)
    rw [if_neg hh] at h
    by_cases hc : tpl.SignatureSize < resp.length
    · rw [if_pos hc] at h; exact absurd h (by simp)
    rw [if_neg hc] at h
    injection h with h2
    simp only [Prod.mk.injEq] at h2
    exact ⟨h2.2.1.symm, h2.2.2.symm⟩


end Ultralite

namespace P11

/-! Helper lemmas about the list surgery used by the pool operations. -/

theorem getLastD_cons {α : Type} (a b : α) (l : List α) :
    (a :: l).getLast?.getD b = l.getLast?.getD a := by
  cases l with
  | nil => rfl
  | cons x t =>
    rw [List.getLast?_cons_cons]
    cases hl : (x :: t).getLast? with
    | none => simp at hl
    | some y => rfl

theorem filter_length_removeFirstSession (p : Session → Bool) (hS : Nat) :
    ∀ (l : List Session) (s : Session),
      l.find? (fun x => x.handle == hS) = some s →
      (l.filter p).length =
        ((removeFirstSession l hS).filter p).length + (if p s then 1 else 0) := by
  intro l
  induction l with
  | nil => intro s h; simp at h
  | cons x t ih =>
    intro s h
    by_cases hx : x.handle = hS
    · rw [List.find?_cons_of_pos _ (by simp [hx])] at h
      injection h with h2
      subst h2
      rw [removeFirstSession, if_pos hx]
      by_cases hp : p x
      · rw [List.filter_cons_of_pos hp, if_pos hp, List.length_cons]
      · rw [List.filter_cons_of_neg hp, if_neg hp]
        omega
    · rw [List.find?_cons_of_neg _ (by simp [hx])] at h
      rw [removeFirstSession, if_neg hx]
      by_cases hp : p x
      · rw [List.filter_cons_of_pos hp, List.filter_cons_of_pos hp,
          List.length_cons, List.length_cons, ih s h]
        omega
      · rw [List.filter_cons_of_neg hp, List.filter_cons_of_neg hp, ih s h]

theorem replaceFirstSlot_cases (id : Nat) (new : Slot) :
    ∀ (l : List Slot) (slot : Slot),
      l.find? (fun s => s.id == id) = some slot →
      l.Pairwise (fun a b => a.id ≠ b.id) →
      ∀ x ∈ replaceFirstSlot l id new, x = new ∨ (x ∈ l ∧ x.id ≠ id) := by
  intro l
  induction l with
  | nil => intro slot h; simp at h
  | cons y t ih =>
    intro slot h hnd x hx
    by_cases hy : y.id = id
    · rw [replaceFirstSlot, if_pos hy] at hx
      rcases List.mem_cons.mp hx with h1 | h1
      · exact Or.inl h1
      · refine Or.inr ⟨List.mem_cons_of_mem _ h1, ?_⟩
        have := (List.pairwise_cons.mp hnd).1 x h1
        omega
    · rw [replaceFirstSlot, if_neg hy] at hx
      rw [List.find?_cons_of_neg _ (by simp [hy])] at h
      rcases List.mem_cons.mp hx with h1 | h1
      · exact Or.inr ⟨by simp [h1], by rw [h1]; exact hy⟩
      · rcases ih slot h (List.pairwise_cons.mp hnd).2 x h1 with h2 | h2
        · exact Or.inl h2
        · exact Or.inr ⟨List.mem_cons_of_mem _ h2.1, h2.2⟩

theorem find?_replaceFirstSlot (id : Nat) (new : Slot) (hnew : new.id = id) :
    ∀ (l : List Slot) (slot : Slot),
      l.find? (fun s => s.id == id) = some slot →
      (replaceFirstSlot l id new).find? (fun s => s.id == id) = some new := by
  intro l
  induction l with
  | nil => intro slot h; simp at h
  | cons y t ih =>
    intro slot h
    by_cases hy : y.id = id
    · rw [replaceFirstSlot, if_pos hy, List.find?_cons_of_pos _ (by simp [hnew])]
    · rw [List.find?_cons_of_neg _ (by simp [hy])] at h
      rw [replaceFirstSlot, if_neg hy, List.find?_cons_of_neg _ (by simp [hy])]
      exact ih slot h

theorem filter_conj_length_le (l : List Session) (id : Nat) :
    (l.filter (fun s => s.slotID == id && ! rwFlag s.flags)).length ≤
      (l.filter (fun s => s.slotID == id)).length := by
  induction l with
  | nil => simp
  | cons x t ih =>
    by_cases h1 : x.slotID = id
    · by_cases h2 : rwFlag x.flags
      · rw [List.filter_cons_of_neg (by simp [h2]),
          List.filter_cons_of_pos (by simp [h1])]
        simp only [List.length_cons]
        omega
      · rw [List.filter_cons_of_pos (by simp [h1, h2]),
          List.filter_cons_of_pos (by simp [h1])]
        simp only [List.length_cons]
        omega
    · rw [List.filter_cons_of_neg (by simp [h1]),
        List.filter_cons_of_neg (by simp [h1])]
      exact ih

/-- `C_CloseSession` preserves the session-count invariant. -/
theorem closeSession_inv (st : P11State) (hS : Nat)
    (hnd : st.slotPool.list.Pairwise (fun a b => a.id ≠ b.id))
    (hinv : poolInvariant st) :
    poolInvariant (closeSession st hS).state := by
  unfold closeSession
  cases hfind : st.sessionPool.list.find? (fun x => x.handle == hS) with
  | none => exact hinv
  | some s =>
    dsimp only
    by_cases hq : s.queuing ≠ 0
    · rw [if_pos hq]; exact hinv
    rw [if_neg hq]
    cases hslot : st.slotPool.list.find? (fun sl => sl.id == s.slotID) with
    | none =>
      intro x hx
      dsimp only at hx ⊢
      obtain ⟨h1, h2⟩ := hinv x hx
      have hne : ¬ x.id = s.slotID := by
        have := List.find?_eq_none.mp hslot x hx
        simpa using this
      have k1 := filter_length_removeFirstSession
        (fun t => t.slotID == x.id) hS _ s hfind
      have k2 := filter_length_removeFirstSession
        (fun t => t.slotID == x.id && ! rwFlag t.flags) hS _ s hfind
      rw [if_neg (by
        simp only [beq_iff_eq, Bool.and_eq_true]
        exact fun hcon => absurd hcon.1.symm hne)] at k2
      rw [if_neg (by simp only [beq_iff_eq]; omega)] at k1
      exact ⟨by omega, by omega⟩
    | some slot =>
      dsimp only
      intro x hx
      dsimp only at hx ⊢
      have hsid : slot.id = s.slotID := by
        have := List.find?_some hslot
        simpa using this
      rcases replaceFirstSlot_cases s.slotID _ _ _ hslot hnd x hx with hcase | hcase
      · subst hcase
        obtain ⟨h1, h2⟩ := hinv slot (List.mem_of_find?_eq_some hslot)
        have k1 := filter_length_removeFirstSession
          (fun t => t.slotID == slot.id) hS _ s hfind
        rw [if_pos (by simp [hsid])] at k1
        have k2 := filter_length_removeFirstSession
          (fun t => t.slotID == slot.id && ! rwFlag t.flags) hS _ s hfind
        constructor
        · dsimp only
          omega
        · dsimp only
          by_cases hrw : rwFlag s.flags
          · rw [if_neg (by simp [hrw])] at k2
            rw [if_neg (by simp [hrw])]
            omega
          · rw [if_pos (by simp [hsid, hrw])] at k2
            rw [if_pos (by simp [hrw])]
            omega
      · obtain ⟨hmem, hne⟩ := hcase
        obtain ⟨h1, h2⟩ := hinv x hmem
        have k1 := filter_length_removeFirstSession
          (fun t => t.slotID == x.id) hS _ s hfind
        have k2 := filter_length_removeFirstSession
          (fun t => t.slotID == x.id && ! rwFlag t.flags) hS _ s hfind
        rw [if_neg (by
          simp only [beq_iff_eq, Bool.and_eq_true]
          exact fun hcon => absurd hcon.1.symm hne)] at k2
        rw [if_neg (by simp only [beq_iff_eq]; omega)] at k1
        exact ⟨by omega, by omega⟩

/-- `C_OpenSession` preserves the session-count invariant (slot ids are
unique in the pool, an invariant of pool construction). -/
theorem openSession_inv (st : P11State) (slotID flags : Nat)
    (hnd : st.slotPool.list.Pairwise (fun a b => a.id ≠ b.id))
    (hinv : poolInvariant st) :
    poolInvariant (openSession st slotID flags).2.1 := by
  unfold openSession
  by_cases hserial : ¬ serialFlag flags
  · rw [if_pos hserial]; exact hinv
  rw [if_neg hserial]
  cases hfind : st.slotPool.list.find? (fun sl => sl.id == slotID) with
  | none => exact hinv
  | some slot =>
    dsimp only
    by_cases hcl : slot.closed
    · rw [if_pos hcl]; exact hinv
    rw [if_neg hcl]
    cases htok : slot.token with
    | none => exact hinv
    | some token =>
      dsimp only
      by_cases hso : ¬ rwFlag flags ∧ token.userType = CKU_SO
      · rw [if_pos hso]; exact hinv
      rw [if_neg hso]
      have hslotid : slot.id = slotID := by
        have := List.find?_some hfind
        simpa using this
      intro x hx
      dsimp only at hx ⊢
      rcases replaceFirstSlot_cases slotID _ _ _ hfind hnd x hx with hcase | hcase
      · subst hcase
        obtain ⟨h1, h2⟩ := hinv slot (List.mem_of_find?_eq_some hfind)
        constructor
        · dsimp only
          rw [List.filter_append,
            List.filter_cons_of_pos (by simp [hslotid]), List.filter_nil,
            List.length_append, List.length_cons, List.length_nil]
          rw [h1]
          push_cast
          omega
        · dsimp only
          by_cases hrw : rwFlag flags
          · rw [if_neg (by simp [hrw]), List.filter_append,
              List.filter_cons_of_neg (by simp [hrw]), List.filter_nil,
              List.length_append, List.length_nil, h2]
            push_cast
            omega
          · rw [if_pos (by simp [hrw]), List.filter_append,
              List.filter_cons_of_pos (by simp [hslotid, hrw]), List.filter_nil,
              List.length_append, List.length_cons, List.length_nil, h2]
            push_cast
            omega
      · obtain ⟨hmem, hne⟩ := hcase
        obtain ⟨h1, h2⟩ := hinv x hmem
        constructor
        · rw [List.filter_append, List.filter_cons_of_neg (by simp [hslotid]; omega),
            List.filter_nil, List.length_append, List.length_nil, h1]
          omega
        · rw [List.filter_append, List.filter_cons_of_neg (by simp [hslotid]; omega),
            List.filter_nil, List.length_append, List.length_nil, h2]
          omega

/-- The counting invariant forces `sessionCount ≥ readOnlySessionCount ≥ 0`. -/
theorem poolInvariant_counts (st : P11State) (hinv : poolInvariant st) :
    ∀ slot ∈ st.slotPool.list,
      0 ≤ slot.readOnlySessionCount ∧
      slot.readOnlySessionCount ≤ slot.sessionCount := by
  intro slot hmem
  obtain ⟨h1, h2⟩ := hinv slot hmem
  have hle := filter_conj_length_le st.sessionPool.list slot.id
  exact ⟨by omega, by omega⟩

/-- A successful `C_OpenSession` appends one session for the slot and
increments that slot's counts. -/
theorem openSession_increments (st : P11State) (slotID flags : Nat)
    (rv : Nat) (st2 : P11State) (h : Option Nat)
    (hopen : openSession st slotID flags = (rv, st2, h)) (hrv : rv = CKR_OK) :
    ∃ slot, st.slotPool.list.find? (fun s => s.id == slotID) = some slot ∧
      st2.slotPool.list.find? (fun s => s.id == slotID) =
        some { slot with
          sessionCount := slot.sessionCount + 1,
          readOnlySessionCount :=
            if ¬ rwFlag flags then slot.readOnlySessionCount + 1
            else slot.readOnlySessionCount } ∧
      st2.sessionPool.list = st.sessionPool.list ++
        [{ handle := st.sessionPool.nextHandle, slotID := slot.id,
           flags := flags, queuing := 0 }] := by
  unfold openSession at hopen
  by_cases hserial : ¬ serialFlag flags
  · rw [if_pos hserial] at hopen
    simp only [Prod.mk.injEq] at hopen
    exact absurd (hopen.1.trans hrv) (by decide)
  rw [if_neg hserial] at hopen
  cases hfind : st.slotPool.list.find? (fun sl => sl.id == slotID) with
  | none =>
    rw [hfind] at hopen
    simp only [Prod.mk.injEq] at hopen
    exact absurd (hopen.1.trans hrv) (by decide)
  | some slot =>
    rw [hfind] at hopen
    dsimp only at hopen
    by_cases hcl : slot.closed
    · rw [if_pos hcl] at hopen
      simp only [Prod.mk.injEq] at hopen
      exact absurd (hopen.1.trans hrv) (by decide)
    rw [if_neg hcl] at hopen
    cases htok : slot.token with
    | none =>
      rw [htok] at hopen
      simp only [Prod.mk.injEq] at hopen
      exact absurd (hopen.1.trans hrv) (by decide)
    | some token =>
      rw [htok] at hopen
      dsimp only at hopen
      by_cases hso : ¬ rwFlag flags ∧ token.userType = CKU_SO
      · rw [if_pos hso] at hopen
        simp only [Prod.mk.injEq] at hopen
        exact absurd (hopen.1.trans hrv) (by decide)
      rw [if_neg hso] at hopen
      simp only [Prod.mk.injEq] at hopen
      have hslotid : slot.id = slotID := by
        have := List.find?_some hfind
        simpa using this
      refine ⟨slot, rfl, ?_, ?_⟩
      · rw [← hopen.2.1]
        dsimp only
        rw [htok]
        exact find?_replaceFirstSlot slotID
          { slot with
            sessionCount := slot.sessionCount + 1,
            readOnlySessionCount :=
              if ¬ rwFlag flags then slot.readOnlySessionCount + 1
              else slot.readOnlySessionCount,
            token := some token }
          hslotid _ _ hfind
      · rw [← hopen.2.1, hslotid]

/-- A successful `C_CloseSession` whose slot exists removes the session and
decrements that slot's counts. -/
theorem closeSession_decrements (st : P11State) (hS : Nat) (s : Session)
    (slot : Slot)
    (hfind : st.sessionPool.list.find? (fun x => x.handle == hS) = some s)
    (hq : s.queuing = 0)
    (hslot : st.slotPool.list.find? (fun sl => sl.id == s.slotID) = some slot) :
    (closeSession st hS).rv = CKR_OK ∧
    (closeSession st hS).state.sessionPool.list =
      removeFirstSession st.sessionPool.list hS ∧
    ∃ slot2,
      (closeSession st hS).state.slotPool.list.find?
        (fun x => x.id == s.slotID) = some slot2 ∧
      slot2.sessionCount = slot.sessionCount - 1 ∧
      slot2.readOnlySessionCount =
        (if ¬ rwFlag s.flags then slot.readOnlySessionCount - 1
         else slot.readOnlySessionCount) := by
  have hsid : slot.id = s.slotID := by
    have := List.find?_some hslot
    simpa using this
  unfold closeSession
  rw [hfind]
  dsimp only
  rw [if_neg (by omega), hslot]
  dsimp only
  refine ⟨rfl, rfl,
    { slot with
      sessionCount := slot.sessionCount - 1,
      readOnlySessionCount :=
        if ¬ rwFlag s.flags then slot.readOnlySessionCount - 1
        else slot.readOnlySessionCount,
      token :=
        if (slot.sessionCount - 1 == 0 &&
            match slot.token with
            | some t => t.userType == CKU_USER || t.userType == CKU_SO
            | none => false) then
          slot.token.map (fun t => { t with userType := 0xFF })
        else slot.token },
    ?_, rfl, rfl⟩
  exact find?_replaceFirstSlot s.slotID
    { slot with
      sessionCount := slot.sessionCount - 1,
      readOnlySessionCount :=
        if ¬ rwFlag s.flags then slot.readOnlySessionCount - 1
        else slot.readOnlySessionCount,
      token :=
        if (slot.sessionCount - 1 == 0 &&
            match slot.token with
            | some t => t.userType == CKU_USER || t.userType == CKU_SO
            | none => false) then
          slot.token.map (fun t => { t with userType := 0xFF })
        else slot.token }
    hsid _ _ hslot


end P11

/-! ## Claim C5 -/

/-- C5 (corrected, counterexample): the claim states that encoding an APDU
with outgoing length 0 and expected response length 256 produces a 5-byte
short APDU.  At the concrete instance `cla = ins = p1 = p2 = 0` both encoders
produce a 7-byte extended APDU instead, refuting the claim. -/
theorem C5_counterexample :
    (Ultralite.scProcessAPDUEncode 0 0 0 0 false [] 0 true 256 =
      .ok [0, 0, 0, 0, 0, 1, 0]) ∧
    (Ultralite.encodeCommandAPDU 0 0 0 0 0 false [] 256 4098 =
      some [0, 0, 0, 0, 0, 1, 0]) ∧
    ∀ l, Ultralite.scProcessAPDUEncode 0 0 0 0 false [] 0 true 256 = .ok l →
      l.length ≠ 5 := by
  refine ⟨rfl, rfl, ?_⟩
  intro l hl
  simp only [show Ultralite.scProcessAPDUEncode 0 0 0 0 false [] 0 true 256 =
      .ok [0, 0, 0, 0, 0, 1, 0] from rfl, Except.ok.injEq] at hl
  subst hl
  decide

/-! ## Claim C1 -/

/-- C1 (confirmed): for the ECDSA template path (`SignatureSize = 72`):
(i) every successful sign returns a card signature of `n ∈ {70, 71, 72}`
bytes and publishes envelope length `EnvelopeLen − (72 − n)`;
(ii) a failing length walk makes the sign operation fail with
`ERR_TEMPLATE` ("template malformed");
(iii) the length walk can only fail with `ERR_TEMPLATE`;
(iv) when the expected tag bytes are in place, the walk succeeds and
decrements exactly the named ancestor length fields (outer SEQUENCE and
context `[0]` and inner SEQUENCE, each long-form-2; signer-info SET and
SEQUENCE, each long-form-1) and the OCTET STRING length byte at
`SignatureOff − 1`, each by `72 − n`, leaving every other byte unchanged;
(v) for the RSA path (`SignatureSize = 256`) every successful sign
publishes the unchanged `EnvelopeLen`. -/
theorem C1_ecdsa_length_fixup :
    (∀ (tpl : Ultralite.Template_t) (sha : List Nat → List Nat)
       (now : Ultralite.Tm) (hash resp : List Nat) (cmsOut : List Nat) (lenOut : Nat),
      tpl.SignatureSize = 72 → 72 ≤ tpl.CMSLen → tpl.CMSLen < 65536 →
      Ultralite.signWithTemplate tpl sha now hash (.ok resp) = .ok (cmsOut, lenOut) →
      (resp.length = 70 ∨ resp.length = 71 ∨ resp.length = 72) ∧
      lenOut = tpl.CMSLen - (72 - resp.length)) ∧
    (∀ (tpl : Ultralite.Template_t) (sha : List Nat → List Nat)
       (now : Ultralite.Tm) (hash resp : List Nat) (e : Int),
      tpl.SignatureSize = 72 → 113 ≤ now.tm_year → now.tm_year < 150 →
      resp.length < 72 →
      Ultralite.ecdsaFixLengths
        (Ultralite.memcpy (Ultralite.patchedAttrCms tpl now hash)
          tpl.SignatureOff resp) (72 - resp.length) tpl.SignatureOff = .error e →
      Ultralite.signWithTemplate tpl sha now hash (.ok resp) =
        .error Ultralite.ERR_TEMPLATE) ∧
    (∀ (cms0 : List Nat) (d sigOff : Nat) (e : Int),
      Ultralite.ecdsaFixLengths cms0 d sigOff = .error e →
      e = Ultralite.ERR_TEMPLATE) ∧
    (∀ (cms0 : List Nat) (d sigOff : Nat) (p2 p3 p4 p5 p6 p7 p8 p9 : Nat),
      (∀ b ∈ cms0, b < 256) →
      p2 = 6 + Ultralite.rd cms0 5 → p3 = p2 + 4 → p4 = p3 + 4 →
      p5 = p4 + 2 + Ultralite.rd cms0 (p4 + 1) →
      p6 = p5 + 2 + Ultralite.rd cms0 (p5 + 1) →
      p7 = p6 + 2 + Ultralite.rd cms0 (p6 + 1) →
      p8 = p7 + 4 + (Ultralite.rd cms0 (p7 + 2) * 256 + Ultralite.rd cms0 (p7 + 3)) →
      p9 = p8 + 3 →
      Ultralite.rd cms0 0 = 0x30 → Ultralite.rd cms0 1 = 0x82 →
      Ultralite.rd cms0 4 = 0x06 →
      Ultralite.rd cms0 p2 = 0xA0 → Ultralite.rd cms0 (p2 + 1) = 0x82 →
      Ultralite.rd cms0 p3 = 0x30 → Ultralite.rd cms0 (p3 + 1) = 0x82 →
      Ultralite.rd cms0 p4 = 0x02 → Ultralite.rd cms0 p5 = 0x31 →
      Ultralite.rd cms0 p6 = 0x30 →
      Ultralite.rd cms0 p7 = 0xA0 → Ultralite.rd cms0 (p7 + 1) = 0x82 →
      Ultralite.rd cms0 p8 = 0x31 → Ultralite.rd cms0 (p8 + 1) = 0x81 →
      Ultralite.rd cms0 p9 = 0x30 → Ultralite.rd cms0 (p9 + 1) = 0x81 →
      d ≤ Ultralite.rd cms0 2 * 256 + Ultralite.rd cms0 3 →
      d ≤ Ultralite.rd cms0 (p2 + 2) * 256 + Ultralite.rd cms0 (p2 + 3) →
      d ≤ Ultralite.rd cms0 (p3 + 2) * 256 + Ultralite.rd cms0 (p3 + 3) →
      d ≤ Ultralite.rd cms0 (p8 + 2) → d ≤ Ultralite.rd cms0 (p9 + 2) →
      d ≤ Ultralite.rd cms0 (sigOff - 1) →
      p9 + 2 < sigOff - 1 → sigOff ≤ cms0.length →
      ∃ cms1,
        Ultralite.ecdsaFixLengths cms0 d sigOff = .ok cms1 ∧
        cms1.length = cms0.length ∧
        Ultralite.rd cms1 2 * 256 + Ultralite.rd cms1 3 =
          Ultralite.rd cms0 2 * 256 + Ultralite.rd cms0 3 - d ∧
        Ultralite.rd cms1 (p2 + 2) * 256 + Ultralite.rd cms1 (p2 + 3) =
          Ultralite.rd cms0 (p2 + 2) * 256 + Ultralite.rd cms0 (p2 + 3) - d ∧
        Ultralite.rd cms1 (p3 + 2) * 256 + Ultralite.rd cms1 (p3 + 3) =
          Ultralite.rd cms0 (p3 + 2) * 256 + Ultralite.rd cms0 (p3 + 3) - d ∧
        Ultralite.rd cms1 (p8 + 2) = Ultralite.rd cms0 (p8 + 2) - d ∧
        Ultralite.rd cms1 (p9 + 2) = Ultralite.rd cms0 (p9 + 2) - d ∧
        Ultralite.rd cms1 (sigOff - 1) = Ultralite.rd cms0 (sigOff - 1) - d ∧
        (∀ j, j ≠ 2 → j ≠ 3 → j ≠ p2 + 2 → j ≠ p2 + 3 → j ≠ p3 + 2 → j ≠ p3 + 3 →
          j ≠ p8 + 2 → j ≠ p9 + 2 → j ≠ sigOff - 1 →
          Ultralite.rd cms1 j = Ultralite.rd cms0 j)) ∧
    (∀ (tpl : Ultralite.Template_t) (sha : List Nat → List Nat)
       (now : Ultralite.Tm) (hash resp : List Nat) (cmsOut : List Nat) (lenOut : Nat),
      tpl.SignatureSize = 256 →
      Ultralite.signWithTemplate tpl sha now hash (.ok resp) = .ok (cmsOut, lenOut) →
      lenOut = tpl.CMSLen) := by
  refine ⟨?_, ?_, Ultralite.ecdsaFixLengths_error, Ultralite.ecdsaFixLengths_ok, ?_⟩
  · intro tpl sha now hash resp cmsOut lenOut h72 hc1 hc2 hsucc
    simp only [Ultralite.signWithTemplate] at hsucc
    rw [if_neg (by omega), if_pos h72] at hsucc
    by_cases ht : 113 ≤ now.tm_year ∧ now.tm_year < 150
    · by_cases hcap : resp.length ≤ tpl.SignatureSize
      · rw [Ultralite.patchECDSATemplate_eval tpl sha now hash resp ht.1 ht.2 hcap]
          at hsucc
        by_cases hlt : resp.length < 72
        · rw [if_pos hlt] at hsucc
          cases hfx : Ultralite.ecdsaFixLengths
              (Ultralite.memcpy (Ultralite.patchedAttrCms tpl now hash)
                tpl.SignatureOff resp) (72 - resp.length) tpl.SignatureOff with
          | error e =>
            rw [hfx] at hsucc
            exact absurd hsucc (by simp)
          | ok cms1 =>
            rw [hfx] at hsucc
            dsimp only at hsucc
            by_cases hacc : resp.length = 70 ∨ resp.length = 71 ∨
                resp.length = 72 ∨ resp.length = 256
            · rw [if_pos hacc] at hsucc
              injection hsucc with h2
              simp only [Prod.mk.injEq] at h2
              refine ⟨by omega, ?_⟩
              rw [← h2.2]
              omega
            · rw [if_neg hacc] at hsucc
              exact absurd hsucc (by simp)
        · rw [if_neg hlt] at hsucc
          dsimp only at hsucc
          have hacc : resp.length = 70 ∨ resp.length = 71 ∨ resp.length = 72 ∨
              resp.length = 256 := by omega
          rw [if_pos hacc] at hsucc
          injection hsucc with h2
          simp only [Prod.mk.injEq] at h2
          refine ⟨by omega, ?_⟩
          rw [← h2.2]
          omega
      · have hinv : Ultralite.patchECDSATemplate tpl sha now hash (.ok resp) =
            .error Ultralite.ERR_INVALID := by
          rw [Ultralite.patchECDSATemplate,
            show Ultralite.patchSignedAttributes tpl sha now hash =
              .ok (Ultralite.patchedAttrCms tpl now hash,
                   Ultralite.attrHashToSign tpl sha now hash) from
              by rw [Ultralite.patchSignedAttributes, if_neg (by omega)]]
          dsimp only
          rw [if_pos (by omega)]
        rw [hinv] at hsucc
        exact absurd hsucc (by simp)
    · have htime : Ultralite.patchECDSATemplate tpl sha now hash (.ok resp) =
          .error Ultralite.ERR_TIME := by
        rw [Ultralite.patchECDSATemplate,
          show Ultralite.patchSignedAttributes tpl sha now hash =
            .error Ultralite.ERR_TIME from
            by rw [Ultralite.patchSignedAttributes, if_pos (by omega)]]
      rw [htime] at hsucc
      exact absurd hsucc (by simp)
  · intro tpl sha now hash resp e h72 hy1 hy2 hlt hfx
    simp only [Ultralite.signWithTemplate]
    rw [if_neg (by omega), if_pos h72,
      Ultralite.patchECDSATemplate_eval tpl sha now hash resp hy1 hy2 (by omega),
      if_pos hlt, hfx]
    dsimp only
    rw [Ultralite.ecdsaFixLengths_error _ _ _ _ hfx]
  · intro tpl sha now hash resp cmsOut lenOut h256 hsucc
    simp only [Ultralite.signWithTemplate] at hsucc
    rw [if_pos h256] at hsucc
    cases hpr : Ultralite.patchRSATemplate tpl sha now hash (.ok resp) with
    | error e =>
      rw [hpr] at hsucc
      exact absurd hsucc (by simp)
    | ok tr =>
      obtain ⟨cms, len, rc⟩ := tr
      rw [hpr] at hsucc
      dsimp only at hsucc
      by_cases hacc : rc = 70 ∨ rc = 71 ∨ rc = 72 ∨ rc = 256
      · rw [if_pos hacc] at hsucc
        injection hsucc with h2
        simp only [Prod.mk.injEq] at h2
        rw [← h2.2, (Ultralite.patchRSATemplate_ok _ _ _ _ _ _ _ _ hpr).1]
      · rw [if_neg hacc] at hsucc
        exact absurd hsucc (by simp)

set_option maxRecDepth 200000 in
/-- Witness for C1: a concrete ECDSA template (`SignatureSize = 72`,
`EnvelopeLen = 149`, `SignatureOff = 77`) signed with a 70-byte card
response publishes envelope length `149 − 2 = 147` (part (i) of the
theorem), and the length walk on the corresponding concrete envelope
succeeds with all named length fields decremented by 2 (part (iv)). -/
theorem C1_witness :
    (((List.replicate 70 9 : List Nat).length = 70 ∨
      (List.replicate 70 9 : List Nat).length = 71 ∨
      (List.replicate 70 9 : List Nat).length = 72) ∧
     147 = 149 - (72 - (List.replicate 70 9 : List Nat).length)) ∧
    (∃ cms1,
      Ultralite.ecdsaFixLengths
        ([48, 130, 0, 147, 6, 0, 160, 130, 0, 100, 48, 130, 0, 90, 2, 0, 49, 0,
          48, 0, 160, 130, 0, 0, 49, 129, 50, 48, 129, 40, 160] ++
          List.replicate 45 0 ++ [72] ++ List.replicate 72 9) 2 77 = .ok cms1 ∧
      cms1.length = ([48, 130, 0, 147, 6, 0, 160, 130, 0, 100, 48, 130, 0, 90,
          2, 0, 49, 0, 48, 0, 160, 130, 0, 0, 49, 129, 50, 48, 129, 40, 160] ++
          List.replicate 45 0 ++ [72] ++ (List.replicate 72 9 : List Nat)).length ∧
      Ultralite.rd cms1 2 * 256 + Ultralite.rd cms1 3 =
        Ultralite.rd ([48, 130, 0, 147, 6, 0, 160, 130, 0, 100, 48, 130, 0, 90,
          2, 0, 49, 0, 48, 0, 160, 130, 0, 0, 49, 129, 50, 48, 129, 40, 160] ++
          List.replicate 45 0 ++ [72] ++ List.replicate 72 9) 2 * 256 +
        Ultralite.rd ([48, 130, 0, 147, 6, 0, 160, 130, 0, 100, 48, 130, 0, 90,
          2, 0, 49, 0, 48, 0, 160, 130, 0, 0, 49, 129, 50, 48, 129, 40, 160] ++
          List.replicate 45 0 ++ [72] ++ List.replicate 72 9) 3 - 2 ∧
      Ultralite.rd cms1 (6 + 2) * 256 + Ultralite.rd cms1 (6 + 3) =
        Ultralite.rd ([48, 130, 0, 147, 6, 0, 160, 130, 0, 100, 48, 130, 0, 90,
          2, 0, 49, 0, 48, 0, 160, 130, 0, 0, 49, 129, 50, 48, 129, 40, 160] ++
          List.replicate 45 0 ++ [72] ++ List.replicate 72 9) (6 + 2) * 256 +
        Ultralite.rd ([48, 130, 0, 147, 6, 0, 160, 130, 0, 100, 48, 130, 0, 90,
          2, 0, 49, 0, 48, 0, 160, 130, 0, 0, 49, 129, 50, 48, 129, 40, 160] ++
          List.replicate 45 0 ++ [72] ++ List.replicate 72 9) (6 + 3) - 2 ∧
      Ultralite.rd cms1 (10 + 2) * 256 + Ultralite.rd cms1 (10 + 3) =
        Ultralite.rd ([48, 130, 0, 147, 6, 0, 160, 130, 0, 100, 48, 130, 0, 90,
          2, 0, 49, 0, 48, 0, 160, 130, 0, 0, 49, 129, 50, 48, 129, 40, 160] ++
          List.replicate 45 0 ++ [72] ++ List.replicate 72 9) (10 + 2) * 256 +
        Ultralite.rd ([48, 130, 0, 147, 6, 0, 160, 130, 0, 100, 48, 130, 0, 90,
          2, 0, 49, 0, 48, 0, 160, 130, 0, 0, 49, 129, 50, 48, 129, 40, 160] ++
          List.replicate 45 0 ++ [72] ++ List.replicate 72 9) (10 + 3) - 2 ∧
      Ultralite.rd cms1 (24 + 2) =
        Ultralite.rd ([48, 130, 0, 147, 6, 0, 160, 130, 0, 100, 48, 130, 0, 90,
          2, 0, 49, 0, 48, 0, 160, 130, 0, 0, 49, 129, 50, 48, 129, 40, 160] ++
          List.replicate 45 0 ++ [72] ++ List.replicate 72 9) (24 + 2) - 2 ∧
      Ultralite.rd cms1 (27 + 2) =
        Ultralite.rd ([48, 130, 0, 147, 6, 0, 160, 130, 0, 100, 48, 130, 0, 90,
          2, 0, 49, 0, 48, 0, 160, 130, 0, 0, 49, 129, 50, 48, 129, 40, 160] ++
          List.replicate 45 0 ++ [72] ++ List.replicate 72 9) (27 + 2) - 2 ∧
      Ultralite.rd cms1 (77 - 1) =
        Ultralite.rd ([48, 130, 0, 147, 6, 0, 160, 130, 0, 100, 48, 130, 0, 90,
          2, 0, 49, 0, 48, 0, 160, 130, 0, 0, 49, 129, 50, 48, 129, 40, 160] ++
          List.replicate 45 0 ++ [72] ++ List.replicate 72 9) (77 - 1) - 2 ∧
      (∀ j, j ≠ 2 → j ≠ 3 → j ≠ 6 + 2 → j ≠ 6 + 3 → j ≠ 10 + 2 → j ≠ 10 + 3 →
        j ≠ 24 + 2 → j ≠ 27 + 2 → j ≠ 77 - 1 →
        Ultralite.rd cms1 j =
          Ultralite.rd ([48, 130, 0, 147, 6, 0, 160, 130, 0, 100, 48, 130, 0, 90,
            2, 0, 49, 0, 48, 0, 160, 130, 0, 0, 49, 129, 50, 48, 129, 40, 160] ++
            List.replicate 45 0 ++ [72] ++ List.replicate 72 9) j)) := by
  constructor
  · exact C1_ecdsa_length_fixup.1
      { Version := 0, HeaderLength := 20, HashLen := 32, CertIdOff := 0,
        SignedAttributesOff := 30, SignedAttributesLen := 46, SigningTimeOff := 31,
        MessageDigestOff := 44, SignatureOff := 77, SignatureSize := 72,
        CMSLen := 149, KeyFid := 52225, TemplateFid := 52485,
        pCms := [48, 130, 0, 147, 6, 0, 160, 130, 0, 100, 48, 130, 0, 90, 2, 0,
          49, 0, 48, 0, 160, 130, 0, 0, 49, 129, 50, 48, 129, 40, 160] ++
          List.replicate 45 0 ++ [72] ++ List.replicate 72 0,
        Label := "sign0" }
      (fun _ => List.replicate 32 0)
      { tm_sec := 59, tm_min := 59, tm_hour := 23, tm_mday := 31, tm_mon := 11,
        tm_year := 149 } (List.replicate 32 1) (List.replicate 70 9)
      ((Ultralite.signWithTemplate
        { Version := 0, HeaderLength := 20, HashLen := 32, CertIdOff := 0,
          SignedAttributesOff := 30, SignedAttributesLen := 46, SigningTimeOff := 31,
          MessageDigestOff := 44, SignatureOff := 77, SignatureSize := 72,
          CMSLen := 149, KeyFid := 52225, TemplateFid := 52485,
          pCms := [48, 130, 0, 147, 6, 0, 160, 130, 0, 100, 48, 130, 0, 90, 2, 0,
            49, 0, 48, 0, 160, 130, 0, 0, 49, 129, 50, 48, 129, 40, 160] ++
            List.replicate 45 0 ++ [72] ++ List.replicate 72 0,
          Label := "sign0" }
        (fun _ => List.replicate 32 0)
        { tm_sec := 59, tm_min := 59, tm_hour := 23, tm_mday := 31, tm_mon := 11,
          tm_year := 149 } (List.replicate 32 1)
        (.ok (List.replicate 70 9))).toOption.getD ([], 0)).1
      147 rfl (by decide) (by decide) rfl
  · exact C1_ecdsa_length_fixup.2.2.2.1
      ([48, 130, 0, 147, 6, 0, 160, 130, 0, 100, 48, 130, 0, 90, 2, 0, 49, 0,
        48, 0, 160, 130, 0, 0, 49, 129, 50, 48, 129, 40, 160] ++
        List.replicate 45 0 ++ [72] ++ List.replicate 72 9) 2 77
      6 10 14 16 18 20 24 27
      (by decide) (by decide) (by decide) (by decide) (by decide) (by decide)
      (by decide) (by decide) (by decide) (by decide) (by decide) (by decide)
      (by decide) (by decide) (by decide) (by decide) (by decide) (by decide)
      (by decide) (by decide) (by decide) (by decide) (by decide) (by decide)
      (by decide) (by decide) (by decide) (by decide) (by decide) (by decide)
      (by decide) (by decide) (by decide)

/-! ## Claim C4 -/

set_option maxRecDepth 80000 in
/-- C4 (corrected, counterexample): the claim states an RSA sign operation
(`SignatureSize = 256`) succeeds only if the card returns exactly 256 bytes.
At a concrete RSA template and a card response of 70 bytes, the sign
operation nevertheless succeeds, because the acceptance test in `sign_hash2`
is the shared `rc == 70 || rc == 71 || rc == 72 || rc == 256`. -/
theorem C4_counterexample :
    (Ultralite.signWithTemplate
      { Version := 0, HeaderLength := 20, HashLen := 32, CertIdOff := 0,
        SignedAttributesOff := 1, SignedAttributesLen := 46, SigningTimeOff := 2,
        MessageDigestOff := 15, SignatureOff := 48, SignatureSize := 256,
        CMSLen := 304, KeyFid := 52225, TemplateFid := 52485,
        pCms := List.replicate 304 0, Label := "sign0" }
      (fun _ => List.replicate 32 0)
      { tm_sec := 59, tm_min := 59, tm_hour := 23, tm_mday := 31, tm_mon := 11,
        tm_year := 149 } (List.replicate 32 1)
      (.ok (List.replicate 70 3))).isOk = true ∧
    (List.replicate 70 3).length ≠ 256 := by
  exact ⟨rfl, by decide⟩

/-- Length preservation for the attribute patch. -/
theorem length_patchedAttrCms (tpl : Ultralite.Template_t) (now : Ultralite.Tm)
    (hash : List Nat) :
    (Ultralite.patchedAttrCms tpl now hash).length = tpl.pCms.length := by
  unfold Ultralite.patchedAttrCms
  simp only [Ultralite.length_wr, Ultralite.length_memcpy]

/-- C4 (amended): for every RSA sign operation on a template with
`SignatureSize = 256` and a 32-byte input hash, the padded block built in the
envelope at `SignatureOff` before invoking the card is exactly
`0x00, 0x01, 0xFF × 202, 0x00, DigestInfo(SHA-256), H(signed attributes)`
(202 = 256 − 3 − 19 − 32, total 256 = SignatureSize), and the operation
succeeds iff the card returns 70, 71, 72 or 256 bytes (the acceptance test is
shared with the ECDSA branch) — not only for exactly 256 bytes as claimed.
On success the published length is the unchanged `EnvelopeLen`. -/
theorem C4_amended (tpl : Ultralite.Template_t) (sha : List Nat → List Nat)
    (now : Ultralite.Tm) (hash resp : List Nat)
    (h256 : tpl.SignatureSize = 256)
    (hy1 : 113 ≤ now.tm_year) (hy2 : now.tm_year < 150)
    (hhash : hash.length = 32)
    (hsha : ∀ x, (sha x).length = 32)
    (hsig : tpl.SignatureOff + 256 ≤ tpl.pCms.length)
    (hcap : resp.length ≤ 256) :
    (Ultralite.rd (Ultralite.rsaBuiltEnvelope tpl sha now hash) tpl.SignatureOff = 0 ∧
     Ultralite.rd (Ultralite.rsaBuiltEnvelope tpl sha now hash) (tpl.SignatureOff + 1) = 1 ∧
     (∀ k, 2 ≤ k → k < 204 →
       Ultralite.rd (Ultralite.rsaBuiltEnvelope tpl sha now hash) (tpl.SignatureOff + k) = 0xFF) ∧
     Ultralite.rd (Ultralite.rsaBuiltEnvelope tpl sha now hash) (tpl.SignatureOff + 204) = 0 ∧
     (∀ k, k < 19 →
       Ultralite.rd (Ultralite.rsaBuiltEnvelope tpl sha now hash) (tpl.SignatureOff + 205 + k) =
         Ultralite.rd Ultralite.encSHA256 k) ∧
     (∀ k, k < 32 →
       Ultralite.rd (Ultralite.rsaBuiltEnvelope tpl sha now hash) (tpl.SignatureOff + 224 + k) =
         Ultralite.rd (Ultralite.attrHashToSign tpl sha now hash) k) ∧
     (Ultralite.rsaBuiltEnvelope tpl sha now hash).length = tpl.pCms.length) ∧
    (Ultralite.signWithTemplate tpl sha now hash (.ok resp) =
      if resp.length = 70 ∨ resp.length = 71 ∨ resp.length = 72 ∨ resp.length = 256
      then .ok (Ultralite.memcpy (Ultralite.rsaBuiltEnvelope tpl sha now hash)
                  tpl.SignatureOff resp, tpl.CMSLen)
      else .error Ultralite.ERR_KEY_SIZE) := by
  have hblock := Ultralite.buildRSABlock_bytes (Ultralite.patchedAttrCms tpl now hash)
    tpl.SignatureOff (Ultralite.attrHashToSign tpl sha now hash)
    (by rw [length_patchedAttrCms]; exact hsig)
    (by rw [show Ultralite.attrHashToSign tpl sha now hash = sha _ from rfl, hsha])
  have hbuilt : Ultralite.rsaBuiltEnvelope tpl sha now hash =
      Ultralite.buildRSABlockAt (Ultralite.patchedAttrCms tpl now hash)
        tpl.SignatureOff 256 (Ultralite.attrHashToSign tpl sha now hash) := by
    rw [Ultralite.rsaBuiltEnvelope, h256]
  constructor
  · rw [hbuilt]
    refine ⟨hblock.2.1, hblock.2.2.1, hblock.2.2.2.1, hblock.2.2.2.2.1,
      hblock.2.2.2.2.2.1, hblock.2.2.2.2.2.2.1, ?_⟩
    rw [hblock.1, length_patchedAttrCms]
  · have hps : Ultralite.patchSignedAttributes tpl sha now hash =
        .ok (Ultralite.patchedAttrCms tpl now hash,
             Ultralite.attrHashToSign tpl sha now hash) := by
      rw [Ultralite.patchSignedAttributes, if_neg (by omega)]
    have hrsa : Ultralite.patchRSATemplate tpl sha now hash (.ok resp) =
        .ok (Ultralite.memcpy (Ultralite.rsaBuiltEnvelope tpl sha now hash)
              tpl.SignatureOff resp, tpl.CMSLen, resp.length) := by
      rw [Ultralite.patchRSATemplate, hps]
      dsimp only
      rw [if_neg (by simp [hhash]), if_neg (by omega)]
    rw [Ultralite.signWithTemplate, if_pos h256, hrsa]

set_option maxRecDepth 80000 in
/-- Witness for C4 (amended): the amended success condition applied at a
concrete RSA template and a 70-byte card response. -/
theorem C4_witness :
    Ultralite.signWithTemplate
      { Version := 0, HeaderLength := 20, HashLen := 32, CertIdOff := 0,
        SignedAttributesOff := 1, SignedAttributesLen := 46, SigningTimeOff := 2,
        MessageDigestOff := 15, SignatureOff := 48, SignatureSize := 256,
        CMSLen := 304, KeyFid := 52225, TemplateFid := 52485,
        pCms := List.replicate 304 0, Label := "sign0" }
      (fun _ => List.replicate 32 0)
      { tm_sec := 59, tm_min := 59, tm_hour := 23, tm_mday := 31, tm_mon := 11,
        tm_year := 149 } (List.replicate 32 1)
      (.ok (List.replicate 70 3)) =
      (if (List.replicate 70 3).length = 70 ∨ (List.replicate 70 3).length = 71 ∨
          (List.replicate 70 3).length = 72 ∨ (List.replicate 70 3).length = 256
       then .ok (Ultralite.memcpy (Ultralite.rsaBuiltEnvelope
          { Version := 0, HeaderLength := 20, HashLen := 32, CertIdOff := 0,
            SignedAttributesOff := 1, SignedAttributesLen := 46, SigningTimeOff := 2,
            MessageDigestOff := 15, SignatureOff := 48, SignatureSize := 256,
            CMSLen := 304, KeyFid := 52225, TemplateFid := 52485,
            pCms := List.replicate 304 0, Label := "sign0" }
          (fun _ => List.replicate 32 0)
          { tm_sec := 59, tm_min := 59, tm_hour := 23, tm_mday := 31, tm_mon := 11,
            tm_year := 149 } (List.replicate 32 1)) 48 (List.replicate 70 3), 304)
       else .error Ultralite.ERR_KEY_SIZE) :=
  (C4_amended _ _ _ _ _ rfl (by decide) (by decide) (by decide)
    (fun _ => by decide) (by decide) (by decide)).2

/-! ## Claim C2 -/

/-- C2 (confirmed): `LoadTemplate` succeeds only when the 20-byte header
satisfies all header invariants.  A header with `Version ≠ 0` or
`HeaderLen ≠ 20` yields `ERR_VERSION` ("template version unsupported"); a
header failing any of the later checks (`HashLen = 32`,
`0 < SigAttrOff`, `SigAttrOff + SigAttrLen < SignatureOff`,
`SigAttrOff < SigningTimeOff`, `SigningTimeOff + 13 ≤ SigAttrOff + SigAttrLen`,
`SigAttrOff < MsgDigestOff`, `MsgDigestOff + HashLen ≤ SigAttrOff + SigAttrLen`,
`0 < SignatureOff`, `SignatureOff + SignatureSize ≤ EnvelopeLen`) yields
`ERR_SANITY` ("template malformed"); in each error case the result is an
`.error`, so no template is cached (`This` is freed and reset to NULL in the
C code).  Every template returned by a successful load satisfies the §3
header invariants. -/
theorem C2_loadTemplate_header_invariants (label : String)
    (fids : Except Int (Nat × Nat)) (hdr : List Nat)
    (bodyRead : Except Int (List Nat)) (kf tf : Nat)
    (hfids : fids = .ok (kf, tf)) (hlen : hdr.length = 20) :
    (¬(Ultralite.rd hdr 0 = 0 ∧ Ultralite.rd hdr 1 = 20) →
      Ultralite.loadTemplate label fids (.ok hdr) bodyRead =
        .error Ultralite.ERR_VERSION) ∧
    ((Ultralite.rd hdr 0 = 0 ∧ Ultralite.rd hdr 1 = 20) →
      ¬(Ultralite.be16 hdr 2 = 32 ∧
        0 < Ultralite.be16 hdr 6 ∧
        Ultralite.be16 hdr 6 + Ultralite.be16 hdr 8 < Ultralite.be16 hdr 14 ∧
        Ultralite.be16 hdr 6 < Ultralite.be16 hdr 10 ∧
        Ultralite.be16 hdr 10 + 13 ≤ Ultralite.be16 hdr 6 + Ultralite.be16 hdr 8 ∧
        Ultralite.be16 hdr 6 < Ultralite.be16 hdr 12 ∧
        Ultralite.be16 hdr 12 + Ultralite.be16 hdr 2 ≤
          Ultralite.be16 hdr 6 + Ultralite.be16 hdr 8 ∧
        0 < Ultralite.be16 hdr 14 ∧
        Ultralite.be16 hdr 14 + Ultralite.be16 hdr 16 ≤ Ultralite.be16 hdr 18) →
      Ultralite.loadTemplate label fids (.ok hdr) bodyRead =
        .error Ultralite.ERR_SANITY) ∧
    (∀ t, Ultralite.loadTemplate label fids (.ok hdr) bodyRead = .ok t →
      Ultralite.headerInvariants t ∧ t.pCms.length = t.CMSLen) := by
  subst hfids
  have hlenOK : ¬(hdr.length ≠ Ultralite.TEMPLATE_HEADER_LENGTH) := by
    simp [hlen, Ultralite.TEMPLATE_HEADER_LENGTH]
  refine ⟨?_, ?_, ?_⟩
  · intro hver
    simp only [Ultralite.loadTemplate]
    rw [if_neg hlenOK, if_pos (by simpa [Ultralite.TEMPLATE_HEADER_LENGTH] using hver)]
  · intro hver hsan
    simp only [Ultralite.loadTemplate]
    rw [if_neg hlenOK,
      if_neg (by simpa [Ultralite.TEMPLATE_HEADER_LENGTH] using not_not_intro hver)]
    by_cases h1 : Ultralite.be16 hdr 2 ≠ 32
    · rw [if_pos h1]
    rw [if_neg h1]
    by_cases h2 : ¬(0 < Ultralite.be16 hdr 6 ∧
        Ultralite.be16 hdr 6 + Ultralite.be16 hdr 8 < Ultralite.be16 hdr 14)
    · rw [if_pos h2]
    rw [if_neg h2]
    by_cases h3 : ¬(Ultralite.be16 hdr 6 < Ultralite.be16 hdr 10 ∧
        Ultralite.be16 hdr 10 + 13 ≤ Ultralite.be16 hdr 6 + Ultralite.be16 hdr 8)
    · rw [if_pos h3]
    rw [if_neg h3]
    by_cases h4 : ¬(Ultralite.be16 hdr 6 < Ultralite.be16 hdr 12 ∧
        Ultralite.be16 hdr 12 + Ultralite.be16 hdr 2 ≤
          Ultralite.be16 hdr 6 + Ultralite.be16 hdr 8)
    · rw [if_pos h4]
    rw [if_neg h4]
    by_cases h5 : ¬(0 < Ultralite.be16 hdr 14 ∧
        Ultralite.be16 hdr 14 + Ultralite.be16 hdr 16 ≤ Ultralite.be16 hdr 18)
    · rw [if_pos h5]
    exact absurd ⟨not_not.mp h1, (not_not.mp h2).1, (not_not.mp h2).2,
      (not_not.mp h3).1, (not_not.mp h3).2, (not_not.mp h4).1, (not_not.mp h4).2,
      (not_not.mp h5).1, (not_not.mp h5).2⟩ hsan
  · intro t ht
    simp only [Ultralite.loadTemplate] at ht
    rw [if_neg hlenOK] at ht
    by_cases hver : ¬(Ultralite.rd hdr 0 = 0 ∧
        Ultralite.rd hdr 1 = Ultralite.TEMPLATE_HEADER_LENGTH)
    · rw [if_pos hver] at ht; exact absurd ht (by simp)
    rw [if_neg hver] at ht
    by_cases h1 : Ultralite.be16 hdr 2 ≠ 32
    · rw [if_pos h1] at ht; exact absurd ht (by simp)
    rw [if_neg h1] at ht
    by_cases h2 : ¬(0 < Ultralite.be16 hdr 6 ∧
        Ultralite.be16 hdr 6 + Ultralite.be16 hdr 8 < Ultralite.be16 hdr 14)
    · rw [if_pos h2] at ht; exact absurd ht (by simp)
    rw [if_neg h2] at ht
    by_cases h3 : ¬(Ultralite.be16 hdr 6 < Ultralite.be16 hdr 10 ∧
        Ultralite.be16 hdr 10 + 13 ≤ Ultralite.be16 hdr 6 + Ultralite.be16 hdr 8)
    · rw [if_pos h3] at ht; exact absurd ht (by simp)
    rw [if_neg h3] at ht
    by_cases h4 : ¬(Ultralite.be16 hdr 6 < Ultralite.be16 hdr 12 ∧
        Ultralite.be16 hdr 12 + Ultralite.be16 hdr 2 ≤
          Ultralite.be16 hdr 6 + Ultralite.be16 hdr 8)
    · rw [if_pos h4] at ht; exact absurd ht (by simp)
    rw [if_neg h4] at ht
    by_cases h5 : ¬(0 < Ultralite.be16 hdr 14 ∧
        Ultralite.be16 hdr 14 + Ultralite.be16 hdr 16 ≤ Ultralite.be16 hdr 18)
    · rw [if_pos h5] at ht; exact absurd ht (by simp)
    rw [if_neg h5] at ht
    match bodyRead with
    | .error e => exact absurd ht (by simp)
    | .ok body =>
      dsimp only at ht
      by_cases h6 : body.length ≠ Ultralite.be16 hdr 18
      · rw [if_pos h6] at ht; exact absurd ht (by simp)
      rw [if_neg h6] at ht
      rw [Except.ok.injEq] at ht
      subst ht
      refine ⟨⟨rfl, rfl, not_not.mp h1, (not_not.mp h2).1, (not_not.mp h2).2,
        (not_not.mp h3).1, (not_not.mp h3).2, (not_not.mp h4).1, (not_not.mp h4).2,
        (not_not.mp h5).1, (not_not.mp h5).2⟩, not_not.mp h6⟩

/-- Witness for C2: a header with `Version = 1` is rejected with
`ERR_VERSION`; a header with `HashLen = 31` is rejected with `ERR_SANITY`;
a fully valid header loads into a template satisfying the §3 invariants. -/
theorem C2_witness :
    (Ultralite.loadTemplate "sign0" (.ok (52225, 52485))
      (.ok [1, 20, 0, 32, 0, 0, 0, 1, 0, 46, 0, 2, 0, 15, 0, 48, 1, 0, 1, 48])
      (.ok []) = .error Ultralite.ERR_VERSION) ∧
    (Ultralite.loadTemplate "sign0" (.ok (52225, 52485))
      (.ok [0, 20, 0, 31, 0, 0, 0, 1, 0, 46, 0, 2, 0, 15, 0, 48, 1, 0, 1, 48])
      (.ok []) = .error Ultralite.ERR_SANITY) ∧
    (Ultralite.headerInvariants
      { Version := 0, HeaderLength := 20, HashLen := 32, CertIdOff := 0,
        SignedAttributesOff := 1, SignedAttributesLen := 46, SigningTimeOff := 2,
        MessageDigestOff := 15, SignatureOff := 48, SignatureSize := 256,
        CMSLen := 304, KeyFid := 52225, TemplateFid := 52485,
        pCms := List.replicate 304 0, Label := "sign0" } ∧
      (List.replicate 304 0).length = 304) := by
  set_option maxRecDepth 40000 in
  refine ⟨(C2_loadTemplate_header_invariants "sign0" _ _ _ 52225 52485 rfl
      (by decide)).1 (by decide),
    (C2_loadTemplate_header_invariants "sign0" _ _ _ 52225 52485 rfl
      (by decide)).2.1 (by decide) (by decide), ?_⟩
  exact (C2_loadTemplate_header_invariants "sign0" (.ok (52225, 52485))
    [0, 20, 0, 32, 0, 0, 0, 1, 0, 46, 0, 2, 0, 15, 0, 48, 1, 0, 1, 48]
    (.ok (List.replicate 304 0)) 52225 52485 rfl (by decide)).2.2 _ rfl

/-! ## Claim C3 -/


/-- C3 (confirmed): the signing-time patch fails with `ERR_TIME` exactly when
the UTC year (`1900 + tm_year`) lies outside `[2013, 2050)`; otherwise it
writes 13 bytes at `SigningTimeOff` which are the `YYMMDDhhmmssZ` encoding of
the current UTC time (the two-digit groups decode back to the time fields and
the final byte is `'Z'`).  The closed conjuncts check the three boundary
instants of the claim on a concrete template: 1999-12-31 23:59:59 fails,
2049-12-31 23:59:59 succeeds, 2050-01-01 00:00:00 fails. -/
theorem C3_signing_time_patch (tpl : Ultralite.Template_t)
    (sha : List Nat → List Nat) (now : Ultralite.Tm) (hash : List Nat) :
    (¬(113 ≤ now.tm_year ∧ now.tm_year < 150) →
      Ultralite.patchSignedAttributes tpl sha now hash = .error Ultralite.ERR_TIME) ∧
    (113 ≤ now.tm_year → now.tm_year < 150 →
      tpl.SignedAttributesOff < tpl.SigningTimeOff →
      tpl.SigningTimeOff + 13 ≤ tpl.MessageDigestOff →
      tpl.SigningTimeOff + 13 ≤ tpl.pCms.length →
      Ultralite.patchSignedAttributes tpl sha now hash =
        .ok (Ultralite.patchedAttrCms tpl now hash,
             Ultralite.attrHashToSign tpl sha now hash) ∧
      ∀ j < 13, Ultralite.rd (Ultralite.patchedAttrCms tpl now hash)
        (tpl.SigningTimeOff + j) = Ultralite.rd (Ultralite.signingTimeBytes now) j) ∧
    (now.tm_year < 150 → 1 + now.tm_mon < 100 → now.tm_mday < 100 →
      now.tm_hour < 100 → now.tm_min < 100 → now.tm_sec < 100 →
      (Ultralite.signingTimeBytes now).length = 13 ∧
      decode2 (Ultralite.signingTimeBytes now) 0 = now.tm_year - 100 ∧
      decode2 (Ultralite.signingTimeBytes now) 2 = 1 + now.tm_mon ∧
      decode2 (Ultralite.signingTimeBytes now) 4 = now.tm_mday ∧
      decode2 (Ultralite.signingTimeBytes now) 6 = now.tm_hour ∧
      decode2 (Ultralite.signingTimeBytes now) 8 = now.tm_min ∧
      decode2 (Ultralite.signingTimeBytes now) 10 = now.tm_sec ∧
      Ultralite.rd (Ultralite.signingTimeBytes now) 12 = 90) ∧
    (Ultralite.patchSignedAttributes
      { Version := 0, HeaderLength := 20, HashLen := 32, CertIdOff := 0,
        SignedAttributesOff := 1, SignedAttributesLen := 46, SigningTimeOff := 2,
        MessageDigestOff := 15, SignatureOff := 48, SignatureSize := 256,
        CMSLen := 304, KeyFid := 52225, TemplateFid := 52485,
        pCms := List.replicate 304 0, Label := "sign0" }
      (fun _ => List.replicate 32 0)
      { tm_sec := 59, tm_min := 59, tm_hour := 23, tm_mday := 31, tm_mon := 11,
        tm_year := 99 } (List.replicate 32 1) = .error Ultralite.ERR_TIME) ∧
    ((Ultralite.patchSignedAttributes
      { Version := 0, HeaderLength := 20, HashLen := 32, CertIdOff := 0,
        SignedAttributesOff := 1, SignedAttributesLen := 46, SigningTimeOff := 2,
        MessageDigestOff := 15, SignatureOff := 48, SignatureSize := 256,
        CMSLen := 304, KeyFid := 52225, TemplateFid := 52485,
        pCms := List.replicate 304 0, Label := "sign0" }
      (fun _ => List.replicate 32 0)
      { tm_sec := 59, tm_min := 59, tm_hour := 23, tm_mday := 31, tm_mon := 11,
        tm_year := 149 } (List.replicate 32 1)).isOk = true) ∧
    (Ultralite.patchSignedAttributes
      { Version := 0, HeaderLength := 20, HashLen := 32, CertIdOff := 0,
        SignedAttributesOff := 1, SignedAttributesLen := 46, SigningTimeOff := 2,
        MessageDigestOff := 15, SignatureOff := 48, SignatureSize := 256,
        CMSLen := 304, KeyFid := 52225, TemplateFid := 52485,
        pCms := List.replicate 304 0, Label := "sign0" }
      (fun _ => List.replicate 32 0)
      { tm_sec := 0, tm_min := 0, tm_hour := 0, tm_mday := 1, tm_mon := 0,
        tm_year := 150 } (List.replicate 32 1) = .error Ultralite.ERR_TIME) := by
  have hlen13 : ∀ t : Ultralite.Tm, (Ultralite.signingTimeBytes t).length = 13 := by
    intro t; rfl
  refine ⟨?_, ?_, ?_, ?_, ?_, ?_⟩
  · intro h
    rw [Ultralite.patchSignedAttributes, if_pos (by omega)]
  · intro hy1 hy2 hord hmd hrange
    constructor
    · rw [Ultralite.patchSignedAttributes, if_neg (by omega)]
    · intro j hj
      show Ultralite.rd (Ultralite.wr (Ultralite.wr _ _ _) _ _) _ = _
      rw [Ultralite.rd_wr_ne _ _ (by omega), Ultralite.rd_wr_ne _ _ (by omega),
        Ultralite.rd_memcpy_lt _ _ _ _ (by omega),
        Ultralite.rd_memcpy_mid _ _ _ _ (by omega) (by rw [hlen13]; omega) (by omega),
        Nat.add_sub_cancel_left]
  · intro h1 h2 h3 h4 h5 h6
    refine ⟨hlen13 now, ?_, ?_, ?_, ?_, ?_, ?_⟩ <;>
      simp [decode2, Ultralite.signingTimeBytes, Ultralite.fmt2, Ultralite.rd] <;>
      omega
  · rfl
  · rfl
  · rfl

set_option maxRecDepth 40000 in
/-- Witness for C3: the success branch applied at UTC 2049-12-31 23:59:59 on
a concrete template, with every hypothesis discharged by computation. -/
theorem C3_witness :
    Ultralite.patchSignedAttributes
      { Version := 0, HeaderLength := 20, HashLen := 32, CertIdOff := 0,
        SignedAttributesOff := 1, SignedAttributesLen := 46, SigningTimeOff := 2,
        MessageDigestOff := 15, SignatureOff := 48, SignatureSize := 256,
        CMSLen := 304, KeyFid := 52225, TemplateFid := 52485,
        pCms := List.replicate 304 0, Label := "sign0" }
      (fun _ => List.replicate 32 0)
      { tm_sec := 59, tm_min := 59, tm_hour := 23, tm_mday := 31, tm_mon := 11,
        tm_year := 149 } (List.replicate 32 1) =
      .ok (Ultralite.patchedAttrCms
            { Version := 0, HeaderLength := 20, HashLen := 32, CertIdOff := 0,
              SignedAttributesOff := 1, SignedAttributesLen := 46,
              SigningTimeOff := 2, MessageDigestOff := 15, SignatureOff := 48,
              SignatureSize := 256, CMSLen := 304, KeyFid := 52225,
              TemplateFid := 52485, pCms := List.replicate 304 0,
              Label := "sign0" }
            { tm_sec := 59, tm_min := 59, tm_hour := 23, tm_mday := 31,
              tm_mon := 11, tm_year := 149 } (List.replicate 32 1),
           Ultralite.attrHashToSign
            { Version := 0, HeaderLength := 20, HashLen := 32, CertIdOff := 0,
              SignedAttributesOff := 1, SignedAttributesLen := 46,
              SigningTimeOff := 2, MessageDigestOff := 15, SignatureOff := 48,
              SignatureSize := 256, CMSLen := 304, KeyFid := 52225,
              TemplateFid := 52485, pCms := List.replicate 304 0,
              Label := "sign0" }
            (fun _ => List.replicate 32 0)
            { tm_sec := 59, tm_min := 59, tm_hour := 23, tm_mday := 31,
              tm_mon := 11, tm_year := 149 } (List.replicate 32 1)) :=
  ((C3_signing_time_patch _ _ _ _).2.1 (by decide) (by decide) (by decide)
    (by decide) (by decide)).1

/-- C5 (amended): for every APDU encoding in which the outgoing data length
is 0 and the expected response length is 256, both encoders use the extended
form and produce a 7-byte APDU `CLA INS P1 P2 00 01 00`; the fifth byte is
the 0x00 extended-form indicator. -/
theorem C5_amended (cla ins p1 p2 : Nat) (outPresent : Bool) (outData : List Nat)
    (inData : List Nat) :
    (Ultralite.scProcessAPDUEncode cla ins p1 p2 outPresent outData 0 true 256 =
      .ok [cla, ins, p1, p2, 0, 1, 0]) ∧
    (Ultralite.encodeCommandAPDU cla ins p1 p2 0 false inData 256 4098 =
      some [cla, ins, p1, p2, 0, 1, 0]) := by
  constructor
  · norm_num [Ultralite.scProcessAPDUEncode, Ultralite.MAX_OUT_IN]
    decide
  · norm_num [Ultralite.encodeCommandAPDU]
    decide

/-! ## Claim C6 -/

/-- C6 (code_bug): the `continue` in the slot-removal loop of
`safeUpdateSlots` does not advance the cursor `ppSlot`, so an absent slot
with a nonzero `queuing` counter is re-examined by the very same iteration
again instead of being left for a subsequent `update()` pass: with the
counter held, the loop never reaches the next slot nor terminates
(sequential semantics; in the running system it spins until the counter
drops and then frees the slot within the same pass). -/
theorem C6_update_deferred_slot_spins :
    ∀ (fuel : Nat) (slot : P11.Slot), slot.present = false → slot.queuing ≠ 0 →
      ∀ (rest : List P11.Slot) (count : Int),
        P11.collectSlots fuel (slot :: rest) count = none := by
  intro fuel
  induction fuel with
  | zero => intro slot h1 h2 rest count; rfl
  | succ n ih =>
    intro slot h1 h2 rest count
    rw [P11.collectSlots, if_neg (by simp [h1]), if_pos h2]
    exact ih { slot with closed := true } h1 h2 rest count

/-- Witness for C6: a concrete absent slot with `queuing = 1` is never
collected, for any concrete amount of loop fuel (here 5). -/
theorem C6_witness :
    P11.collectSlots 5
      [{ id := 1, sessionCount := 0, readOnlySessionCount := 0, queuing := 1,
         present := false, closed := false, token := none }] 1 = none :=
  C6_update_deferred_slot_spins 5
    { id := 1, sessionCount := 0, readOnlySessionCount := 0, queuing := 1,
      present := false, closed := false, token := none }
    (by decide) (by decide) [] 1

/-! ## Claim C7 -/

/-- C7 (confirmed): closing a session whose handle is found in the pool
while its queuing counter is nonzero returns `CKR_FUNCTION_FAILED` and
leaves the entire state unchanged: the session is not unlinked, no slot
count changes, no logout happens, and `freeSession` is not called. -/
theorem C7_close_pinned_session_fails (st : P11.P11State) (hS : Nat)
    (s : P11.Session)
    (hfind : st.sessionPool.list.find? (fun x => x.handle == hS) = some s)
    (hq : s.queuing ≠ 0) :
    P11.closeSession st hS = ⟨P11.CKR_FUNCTION_FAILED, st, false, false⟩ := by
  unfold P11.closeSession
  rw [hfind]
  dsimp only
  rw [if_pos hq]

/-- Witness for C7: a pinned session (queuing = 2) on a one-session pool. -/
theorem C7_witness :
    P11.closeSession
      { sessionPool :=
          { list := [{ handle := 1, slotID := 5, flags := 6, queuing := 2 }],
            count := 1, nextHandle := 2 },
        slotPool :=
          { list := [{ id := 5, sessionCount := 1, readOnlySessionCount := 0,
                       queuing := 0, present := true, closed := false,
                       token := some { userType := 1 } }],
            count := 1 } } 1 =
      ⟨P11.CKR_FUNCTION_FAILED,
       { sessionPool :=
           { list := [{ handle := 1, slotID := 5, flags := 6, queuing := 2 }],
             count := 1, nextHandle := 2 },
         slotPool :=
           { list := [{ id := 5, sessionCount := 1, readOnlySessionCount := 0,
                        queuing := 0, present := true, closed := false,
                        token := some { userType := 1 } }],
             count := 1 } },
       false, false⟩ :=
  C7_close_pinned_session_fails _ 1
    { handle := 1, slotID := 5, flags := 6, queuing := 2 }
    (by decide) (by decide)

/-! ## Claim C10 -/

/-- C10 (corrected, counterexample): the claim says that when close-session
finds the session with queuing 0 but no slot matches its `slotID`, the
session is unlinked, *freed*, and the call returns ok.  At a concrete such
state the call does return ok, unlinks the session, decrements no slot
count and triggers no logout — but `freeSession` is *not* called (the C
returns straight from the `slot == NULL` check, leaking the session), so
the claim as stated is false. -/
theorem C10_counterexample :
    P11.closeSession
      { sessionPool :=
          { list := [{ handle := 1, slotID := 5, flags := 6, queuing := 0 }],
            count := 1, nextHandle := 2 },
        slotPool :=
          { list := [{ id := 7, sessionCount := 0, readOnlySessionCount := 0,
                       queuing := 0, present := true, closed := false,
                       token := none }],
            count := 1 } } 1 =
      ⟨P11.CKR_OK,
       { sessionPool := { list := [], count := 0, nextHandle := 2 },
         slotPool :=
           { list := [{ id := 7, sessionCount := 0, readOnlySessionCount := 0,
                        queuing := 0, present := true, closed := false,
                        token := none }],
             count := 1 } },
       false, false⟩ ∧
    (P11.closeSession
      { sessionPool :=
          { list := [{ handle := 1, slotID := 5, flags := 6, queuing := 0 }],
            count := 1, nextHandle := 2 },
        slotPool :=
          { list := [{ id := 7, sessionCount := 0, readOnlySessionCount := 0,
                       queuing := 0, present := true, closed := false,
                       token := none }],
            count := 1 } } 1).freedSession = false := by
  exact ⟨rfl, rfl⟩

/-- C10 (amended): if close-session finds the session with queuing counter
zero but no slot in the pool has its `slotID`, the session is unlinked from
the session pool and the call returns ok, without decrementing any slot
session counts and without triggering a logout — but the session structure
is not freed (the memory is leaked). -/
theorem C10_amended (st : P11.P11State) (hS : Nat) (s : P11.Session)
    (hfind : st.sessionPool.list.find? (fun x => x.handle == hS) = some s)
    (hq : s.queuing = 0)
    (hslot : st.slotPool.list.find? (fun sl => sl.id == s.slotID) = none) :
    P11.closeSession st hS =
      ⟨P11.CKR_OK,
       { st with sessionPool :=
           { st.sessionPool with
             list := P11.removeFirstSession st.sessionPool.list hS,
             count := st.sessionPool.count - 1 } },
       false, false⟩ := by
  unfold P11.closeSession
  rw [hfind]
  dsimp only
  rw [if_neg (by omega), hslot]

/-- Witness for C10 (amended): the concrete leak state. -/
theorem C10_witness :
    P11.closeSession
      { sessionPool :=
          { list := [{ handle := 3, slotID := 9, flags := 4, queuing := 0 }],
            count := 1, nextHandle := 4 },
        slotPool := { list := [], count := 0 } } 3 =
      ⟨P11.CKR_OK,
       { sessionPool :=
           { list := P11.removeFirstSession
               [{ handle := 3, slotID := 9, flags := 4, queuing := 0 }] 3,
             count := 0, nextHandle := 4 },
         slotPool := { list := [], count := 0 } },
       false, false⟩ :=
  C10_amended _ 3 { handle := 3, slotID := 9, flags := 4, queuing := 0 }
    (by decide) (by decide) (by decide)

/-! ## Claim C9 -/

/-- The attribute loop with an arbitrary incoming `rv` equals the spec-side
description: the output cells are the per-cell policy applied pointwise, and
the returned value is the last per-cell verdict, defaulting to the incoming
`rv`. -/
theorem getAttrLoop_eq_spec (obj : P11.ObjModel) :
    ∀ (cells : List P11.CellIn) (rv : Nat),
      P11.getAttrLoop obj rv cells =
        (((cells.filterMap (P11.cellVerdict obj)).getLast?).getD rv,
         cells.map (P11.cellOutSpec obj)) := by
  intro cells
  induction cells with
  | nil => intro rv; rfl
  | cons c rest ih =>
    intro rv
    rw [P11.getAttrLoop, List.filterMap_cons, List.map_cons]
    cases hf : obj.attrs.find? (fun a => a.type == c.type) with
    | none =>
      dsimp only
      rw [ih P11.CKR_ATTRIBUTE_TYPE_INVALID]
      simp only [P11.cellVerdict, P11.cellOutSpec, hf]
      rw [P11.getLastD_cons]
    | some a =>
      dsimp only
      by_cases hs : a.type = P11.CKA_VALUE ∧ obj.sensitive
      · rw [if_pos hs, ih P11.CKR_ATTRIBUTE_SENSITIVE]
        simp only [P11.cellVerdict, P11.cellOutSpec, hf, if_pos hs]
        rw [P11.getLastD_cons]
      · rw [if_neg hs]
        by_cases hp : ¬ c.hasPtr
        · rw [if_pos hp, ih rv]
          simp only [P11.cellVerdict, P11.cellOutSpec, hf, if_neg hs, if_pos hp]
        · rw [if_neg hp]
          by_cases hb : a.value.length ≤ c.bufLen
          · rw [if_pos hb, ih rv]
            simp only [P11.cellVerdict, P11.cellOutSpec, hf, if_neg hs, if_neg hp,
              if_pos hb]
          · rw [if_neg hb, ih P11.CKR_BUFFER_TOO_SMALL]
            simp only [P11.cellVerdict, P11.cellOutSpec, hf, if_neg hs, if_neg hp,
              if_neg hb]
            rw [P11.getLastD_cons]

/-- C9 (confirmed): a multi-attribute `C_GetAttributeValue` call on a found
object processes every template cell according to the per-cell policy
(unknown type → all-ones sentinel and "type invalid"; `CKA_VALUE` on a
sensitive object → sentinel and "sensitive"; NULL output pointer → true
length only, value buffer untouched; too-small buffer → true length and
"buffer too small"; otherwise copy and write the length); the returned
value is whichever error kind was observed last over the template, or
`CKR_OK` if none occurred. -/
theorem C9_get_attribute_value (obj : P11.ObjModel) (cells : List P11.CellIn) :
    P11.cGetAttributeValue obj cells =
      (((cells.filterMap (P11.cellVerdict obj)).getLast?).getD P11.CKR_OK,
       cells.map (P11.cellOutSpec obj)) :=
  getAttrLoop_eq_spec obj cells P11.CKR_OK

/-! ## Claim C8 -/

/-- C8 (confirmed): at every quiescent point the pool invariant ties each
slot's `sessionCount` and `readOnlySessionCount` to the number of sessions
of that slot (all of them, resp. the read-only ones) in the session pool,
which forces `sessionCount ≥ readOnlySessionCount ≥ 0`; the invariant is
preserved by `C_OpenSession` and by `C_CloseSession`; a successful open
appends one session for the slot and increments that slot's counts, and a
successful close whose slot exists removes the session and decrements the
counts accordingly. -/
theorem C8_session_count_invariant (st : P11.P11State)
    (hnd : st.slotPool.list.Pairwise (fun a b => a.id ≠ b.id))
    (hinv : P11.poolInvariant st) :
    (∀ slot ∈ st.slotPool.list,
      0 ≤ slot.readOnlySessionCount ∧
      slot.readOnlySessionCount ≤ slot.sessionCount) ∧
    (∀ slotID flags,
      P11.poolInvariant (P11.openSession st slotID flags).2.1) ∧
    (∀ hS, P11.poolInvariant (P11.closeSession st hS).state) ∧
    (∀ slotID flags rv st2 h,
      P11.openSession st slotID flags = (rv, st2, h) → rv = P11.CKR_OK →
      ∃ slot, st.slotPool.list.find? (fun s => s.id == slotID) = some slot ∧
        st2.slotPool.list.find? (fun s => s.id == slotID) =
          some { slot with
            sessionCount := slot.sessionCount + 1,
            readOnlySessionCount :=
              if ¬ P11.rwFlag flags then slot.readOnlySessionCount + 1
              else slot.readOnlySessionCount } ∧
        st2.sessionPool.list = st.sessionPool.list ++
          [{ handle := st.sessionPool.nextHandle, slotID := slot.id,
             flags := flags, queuing := 0 }]) ∧
    (∀ hS s slot,
      st.sessionPool.list.find? (fun x => x.handle == hS) = some s →
      s.queuing = 0 →
      st.slotPool.list.find? (fun sl => sl.id == s.slotID) = some slot →
      (P11.closeSession st hS).rv = P11.CKR_OK ∧
      (P11.closeSession st hS).state.sessionPool.list =
        P11.removeFirstSession st.sessionPool.list hS ∧
      ∃ slot2,
        (P11.closeSession st hS).state.slotPool.list.find?
          (fun x => x.id == s.slotID) = some slot2 ∧
        slot2.sessionCount = slot.sessionCount - 1 ∧
        slot2.readOnlySessionCount =
          (if ¬ P11.rwFlag s.flags then slot.readOnlySessionCount - 1
           else slot.readOnlySessionCount)) :=
  ⟨P11.poolInvariant_counts st hinv,
   fun slotID flags => P11.openSession_inv st slotID flags hnd hinv,
   fun hS => P11.closeSession_inv st hS hnd hinv,
   fun slotID flags rv st2 h hopen hrv =>
     P11.openSession_increments st slotID flags rv st2 h hopen hrv,
   fun hS s slot h1 h2 h3 =>
     P11.closeSession_decrements st hS s slot h1 h2 h3⟩

/-- Witness for C8: a pool with one slot holding one read-only session
satisfies the hypotheses, and closing that session succeeds and empties the
session pool. -/
theorem C8_witness :
    (P11.closeSession
      { sessionPool :=
          { list := [{ handle := 1, slotID := 5, flags := 4, queuing := 0 }],
            count := 1, nextHandle := 2 },
        slotPool :=
          { list := [{ id := 5, sessionCount := 1, readOnlySessionCount := 1,
                       queuing := 0, present := true, closed := false,
                       token := some { userType := 1 } }],
            count := 1 } } 1).rv = P11.CKR_OK ∧
    (P11.closeSession
      { sessionPool :=
          { list := [{ handle := 1, slotID := 5, flags := 4, queuing := 0 }],
            count := 1, nextHandle := 2 },
        slotPool :=
          { list := [{ id := 5, sessionCount := 1, readOnlySessionCount := 1,
                       queuing := 0, present := true, closed := false,
                       token := some { userType := 1 } }],
            count := 1 } } 1).state.sessionPool.list =
      P11.removeFirstSession
        [{ handle := 1, slotID := 5, flags := 4, queuing := 0 }] 1 := by
  have h := (C8_session_count_invariant
    { sessionPool :=
        { list := [{ handle := 1, slotID := 5, flags := 4, queuing := 0 }],
          count := 1, nextHandle := 2 },
      slotPool :=
        { list := [{ id := 5, sessionCount := 1, readOnlySessionCount := 1,
                     queuing := 0, present := true, closed := false,
                     token := some { userType := 1 } }],
          count := 1 } }
    (by decide)
    (by
      intro slot hm
      rw [List.mem_singleton] at hm
      subst hm
      decide)).2.2.2.2 1
    { handle := 1, slotID := 5, flags := 4, queuing := 0 }
    { id := 5, sessionCount := 1, readOnlySessionCount := 1,
      queuing := 0, present := true, closed := false,
      token := some { userType := 1 } }
    (by decide) (by decide) (by decide)
  exact ⟨h.1, h.2.1⟩
